import Mathlib

/-!
# ByteHeal: detection core of the wearable health-monitor sketches

Shallow embedding of the classification and debouncing logic of
`combinedsense.cpp`, `iot/fall_detection_threshold.cpp`, `iot/finalimu.cpp`,
`iot/webserver-ip-detection.cpp` and `iot/newfallseizurelogic.cpp`.

Conventions of the embedding:
* `float` values are exact rationals (`ℚ`); rounding and NaN are not modelled.
* `unsigned long` is the 32-bit unsigned type of the ESP32 target: times are
  natural numbers and every subtraction of two times is `usub`, the
  difference modulo `2^32`.
* the C library function `sqrt` is a parameter `sqrtf : ℚ → ℚ` of every
  function that calls it; `IsSqrt` states what a call returns.
* global variables of a sketch are the fields of a state record that each
  function takes and returns.
-/

namespace ByteHeal

/-- Number of values of an `unsigned long` (32 bits). -/
def WORD : Nat := 4294967296

/-- Unsigned 32-bit subtraction `a - b`, as in `now - freefallStart`. -/
def usub (a b : Nat) : Nat := (a % WORD + (WORD - b % WORD)) % WORD

/-- The mathematical contract of a call `sqrt(s)` returning `m`. -/
def IsSqrt (s m : ℚ) : Prop := 0 ≤ m ∧ m * m = s

instance (s m : ℚ) : Decidable (IsSqrt s m) :=
  inferInstanceAs (Decidable (_ ∧ _))

/-- Integer square root by bisection between `lo` and `hi`, `fuel` steps. -/
def isqrtGo : Nat → Nat → Nat → Nat → Nat
  | 0, _, lo, _ => lo
  | fuel + 1, n, lo, hi =>
    if hi ≤ lo + 1 then lo
    else if ((lo + hi) / 2) * ((lo + hi) / 2) ≤ n then isqrtGo fuel n ((lo + hi) / 2) hi
    else isqrtGo fuel n lo ((lo + hi) / 2)

/-- Integer square root of a number below `2^64`. -/
def isqrt (n : Nat) : Nat := isqrtGo 64 n 0 (n + 1)

/-- A computable stand-in for `sqrt` in concrete runs: square roots of
numerator and denominator, exact on the small squares it is used at. -/
def qsqrt (q : ℚ) : ℚ := (isqrt q.num.toNat : ℚ) / (isqrt q.den : ℚ)

/-- The three axes of one `sensors_event_t` reading. -/
structure Vec3 where
  x : ℚ
  y : ℚ
  z : ℚ
deriving DecidableEq, Repr

/-! ## combinedsense.cpp -/

namespace Combined

/-- The record `MedicalThresholds` with its default member initialisers. -/
structure MedicalThresholds where
  hr_sepsis_high : ℚ := 100
  hr_sepsis_low : ℚ := 60
  hr_seizure_high : ℚ := 120
  hr_critical_high : ℚ := 140
  hr_critical_low : ℚ := 50
  spo2_sepsis_low : ℚ := 95
  spo2_seizure_low : ℚ := 90
  spo2_critical_low : ℚ := 85
  accel_seizure_threshold : ℚ := 3
  gyro_seizure_threshold : ℚ := 50
  accel_critical_threshold : ℚ := 5
  gyro_critical_threshold : ℚ := 100
  motion_duration_threshold : Nat := 10000
  critical_motion_duration : Nat := 30000
  sepsis_cooldown : Nat := 300000
  seizure_cooldown : Nat := 180000
  critical_cooldown : Nat := 60000
deriving DecidableEq, Repr

/-- The global `thresholds` object: every member keeps its default. -/
def thresholds : MedicalThresholds := {}

/-- The global variables of the sketch. -/
structure Globals where
  current_hr : ℚ := 0
  current_spo2 : ℚ := 0
  accel_magnitude : ℚ := 0
  gyro_magnitude : ℚ := 0
  motion_detected : Bool := false
  motion_start_time : Nat := 0
  last_sepsis_alert : Nat := 0
  last_seizure_alert : Nat := 0
  last_critical_alert : Nat := 0
  sepsis_detected : Bool := false
  seizure_detected : Bool := false
  critical_condition : Bool := false
deriving DecidableEq, Repr

/-- One piece appended to `alert_message`: a literal, or the rendering of
`"HR:" + String(current_hr) + " SpO2:" + String(current_spo2)`. -/
inductive Piece where
  | text (s : String)
  | vitals (hr spo2 : ℚ)
deriving DecidableEq, Repr

/-- The arguments handed to `sendSMS` when `send_alert` is true. -/
structure Alert where
  alert_type : String
  alert_message : List Piece
deriving DecidableEq, Repr

/-- The squared sum under the `sqrt` of `accel_magnitude` in
`updateSensorReadings`: the raw `a.acceleration` axes, as read. -/
def accelSumSq (a : Vec3) : ℚ := a.x * a.x + a.y * a.y + a.z * a.z

/-- The squared sum under the `sqrt` of `gyro_magnitude`. -/
def gyroSumSq (g : Vec3) : ℚ := g.x * g.x + g.y * g.y + g.z * g.z

/-- `updateSensorReadings`: `hr` and `spo2` are what the pulse oximeter
returns, `a` and `g` the MPU6050 event, `now` the value of `millis()`.
`PI` is the parameter `pi`. -/
def updateSensorReadings (sqrtf : ℚ → ℚ) (pi : ℚ) (th : MedicalThresholds)
    (hr spo2 : ℚ) (a g : Vec3) (now : Nat) (s : Globals) : Globals :=
  let s := { s with current_hr := hr, current_spo2 := spo2 }
  let s := { s with accel_magnitude := sqrtf (accelSumSq a) }
  let s := { s with gyro_magnitude := sqrtf (gyroSumSq g) * 180 / pi }
  if s.accel_magnitude > th.accel_seizure_threshold ∨
      s.gyro_magnitude > th.gyro_seizure_threshold then
    if !s.motion_detected then
      { s with motion_detected := true, motion_start_time := now }
    else s
  else
    { s with motion_detected := false, motion_start_time := 0 }

/-- `checkMedicalConditions`, with `current_time` the value of `millis()`.
Returns the new globals and, when `send_alert` is set, the alert sent. -/
def checkMedicalConditions (th : MedicalThresholds) (current_time : Nat)
    (s : Globals) : Globals × Option Alert :=
  let s := { s with sepsis_detected := false, seizure_detected := false,
                    critical_condition := false }
  let vitals := Piece.vitals s.current_hr s.current_spo2
  if (s.current_hr > th.hr_critical_high ∨ s.current_hr < th.hr_critical_low) ∨
      (s.current_spo2 < th.spo2_critical_low) ∨
      (s.accel_magnitude > th.accel_critical_threshold) ∨
      (s.gyro_magnitude > th.gyro_critical_threshold) ∨
      (s.motion_detected = true ∧
        usub current_time s.motion_start_time > th.critical_motion_duration) then
    let s := { s with critical_condition := true }
    if usub current_time s.last_critical_alert > th.critical_cooldown then
      let m := [Piece.text "CRITICAL ALERT! "]
      let m := if s.current_hr > th.hr_critical_high then
        m ++ [Piece.text "Extreme Tachycardia "] else m
      let m := if s.current_hr < th.hr_critical_low then
        m ++ [Piece.text "Extreme Bradycardia "] else m
      let m := if s.current_spo2 < th.spo2_critical_low then
        m ++ [Piece.text "Severe Hypoxemia "] else m
      let m := if s.accel_magnitude > th.accel_critical_threshold then
        m ++ [Piece.text "Violent Motion "] else m
      let m := if s.motion_detected = true ∧
          usub current_time s.motion_start_time > th.critical_motion_duration then
        m ++ [Piece.text "Prolonged Seizure Activity "] else m
      let m := m ++ [vitals]
      ({ s with last_critical_alert := current_time }, some ⟨"CRITICAL", m⟩)
    else (s, none)
  else if (s.current_hr > th.hr_seizure_high) ∨
      (s.current_spo2 < th.spo2_seizure_low) ∨
      (s.motion_detected = true ∧
        usub current_time s.motion_start_time > th.motion_duration_threshold) then
    let s := { s with seizure_detected := true }
    if usub current_time s.last_seizure_alert > th.seizure_cooldown then
      let m := [Piece.text "SEIZURE ALERT! "]
      let m := if s.current_hr > th.hr_seizure_high then
        m ++ [Piece.text "High HR "] else m
      let m := if s.current_spo2 < th.spo2_seizure_low then
        m ++ [Piece.text "Low SpO2 "] else m
      let m := if s.motion_detected = true then
        m ++ [Piece.text "Prolonged Motion "] else m
      let m := m ++ [vitals]
      ({ s with last_seizure_alert := current_time }, some ⟨"SEIZURE", m⟩)
    else (s, none)
  else if (s.current_hr > th.hr_sepsis_high ∨ s.current_hr < th.hr_sepsis_low) ∨
      (s.current_spo2 < th.spo2_sepsis_low) then
    let s := { s with sepsis_detected := true }
    if usub current_time s.last_sepsis_alert > th.sepsis_cooldown then
      let m := [Piece.text "SEPSIS ALERT! "]
      let m := if s.current_hr > th.hr_sepsis_high then
        m ++ [Piece.text "Tachycardia "] else m
      let m := if s.current_hr < th.hr_sepsis_low then
        m ++ [Piece.text "Bradycardia "] else m
      let m := if s.current_spo2 < th.spo2_sepsis_low then
        m ++ [Piece.text "Hypoxemia "] else m
      let m := m ++ [vitals]
      ({ s with last_sepsis_alert := current_time }, some ⟨"SEPSIS", m⟩)
    else (s, none)
  else (s, none)

/-- The severity tiers of the classifier. -/
inductive Tier where
  | NONE
  | SEPSIS
  | SEIZURE
  | CRITICAL
deriving DecidableEq, Repr

/-- The tier shown by `printStatus` from the three status flags. -/
def statusTier (s : Globals) : Tier :=
  if s.critical_condition then Tier.CRITICAL
  else if s.seizure_detected then Tier.SEIZURE
  else if s.sepsis_detected then Tier.SEPSIS
  else Tier.NONE

/-- What one pass of `loop` reads from the outside: the oximeter values, the
MPU6050 event, and the two values of `millis()` (in `updateSensorReadings`
and in `checkMedicalConditions`). -/
structure LoopIn where
  hr : ℚ
  spo2 : ℚ
  a : Vec3
  g : Vec3
  tUpdate : Nat
  tCheck : Nat
deriving DecidableEq, Repr

/-- One pass of `loop`: `updateSensorReadings(); checkMedicalConditions();`
(the periodic `printStatus` only prints). -/
def loop (sqrtf : ℚ → ℚ) (pi : ℚ) (th : MedicalThresholds) (s : Globals)
    (k : LoopIn) : Globals × Option Alert :=
  checkMedicalConditions th k.tCheck
    (updateSensorReadings sqrtf pi th k.hr k.spo2 k.a k.g k.tUpdate s)

/-- The globals after a sequence of passes of `loop`. -/
def run (sqrtf : ℚ → ℚ) (pi : ℚ) (th : MedicalThresholds) :
    Globals → List LoopIn → Globals
  | s, [] => s
  | s, k :: ks => run sqrtf pi th (loop sqrtf pi th s k).1 ks

/-- The alert sent (or not) by each pass of a sequence of passes of `loop`. -/
def alerts (sqrtf : ℚ → ℚ) (pi : ℚ) (th : MedicalThresholds) :
    Globals → List LoopIn → List (Option Alert)
  | _, [] => []
  | s, k :: ks =>
    (loop sqrtf pi th s k).2 :: alerts sqrtf pi th (loop sqrtf pi th s k).1 ks

/-- The tier displayed after each pass of a sequence of passes of `loop`. -/
def tiers (sqrtf : ℚ → ℚ) (pi : ℚ) (th : MedicalThresholds) :
    Globals → List LoopIn → List Tier
  | _, [] => []
  | s, k :: ks =>
    statusTier (loop sqrtf pi th s k).1 :: tiers sqrtf pi th (loop sqrtf pi th s k).1 ks

/-- The `alert_type` string of a tier. -/
def Tier.label : Tier → String
  | Tier.NONE => ""
  | Tier.SEPSIS => "SEPSIS"
  | Tier.SEIZURE => "SEIZURE"
  | Tier.CRITICAL => "CRITICAL"

/-- The cooldown member of a tier. -/
def cooldownOf (th : MedicalThresholds) : Tier → Nat
  | Tier.NONE => 0
  | Tier.SEPSIS => th.sepsis_cooldown
  | Tier.SEIZURE => th.seizure_cooldown
  | Tier.CRITICAL => th.critical_cooldown

/-- The `last_*_alert` global of a tier. -/
def lastAlertOf (s : Globals) : Tier → Nat
  | Tier.NONE => 0
  | Tier.SEPSIS => s.last_sepsis_alert
  | Tier.SEIZURE => s.last_seizure_alert
  | Tier.CRITICAL => s.last_critical_alert

/-- An alert of tier `X` was sent. -/
def Emits (out : Option Alert) (X : Tier) : Prop :=
  ∃ a, out = some a ∧ a.alert_type = X.label

instance (out : Option Alert) (X : Tier) : Decidable (Emits out X) :=
  match out with
  | none => isFalse (fun h => by obtain ⟨a, ha, -⟩ := h; cases ha)
  | some a =>
    if h : a.alert_type = X.label then isTrue ⟨a, rfl, h⟩
    else isFalse (fun h2 => by obtain ⟨b, hb, hl⟩ := h2; cases hb; exact h hl)

/-! ### The rule table of the specification, tier by tier -/

/-- Sustained-motion duration at time `t`: how long `motion_detected` has
been set, zero when it is not. -/
def motionDuration (t : Nat) (s : Globals) : Nat :=
  if s.motion_detected then usub t s.motion_start_time else 0

/-- Rule table, row CRITICAL. -/
def CriticalTrigger (th : MedicalThresholds) (t : Nat) (s : Globals) : Prop :=
  s.current_hr > th.hr_critical_high ∨ s.current_hr < th.hr_critical_low ∨
  s.current_spo2 < th.spo2_critical_low ∨
  s.accel_magnitude > th.accel_critical_threshold ∨
  s.gyro_magnitude > th.gyro_critical_threshold ∨
  motionDuration t s > th.critical_motion_duration

/-- Rule table, row SEIZURE, over the inputs of `checkMedicalConditions`. -/
def SeizureTrigger (th : MedicalThresholds) (t : Nat) (s : Globals) : Prop :=
  s.current_hr > th.hr_seizure_high ∨ s.current_spo2 < th.spo2_seizure_low ∨
  motionDuration t s > th.motion_duration_threshold

/-- Rule table, row SEIZURE, as the specification words it: with the
gyro-RMS trigger, `rms` being the RMS value and `rmsThr` the
`seizure_rms_threshold`. -/
def SeizureTriggerSpec (th : MedicalThresholds) (t : Nat) (s : Globals)
    (rms rmsThr : ℚ) : Prop :=
  s.current_hr > th.hr_seizure_high ∨ s.current_spo2 < th.spo2_seizure_low ∨
  motionDuration t s > th.motion_duration_threshold ∨ rms > rmsThr

/-- Rule table, row SEPSIS. -/
def SepsisTrigger (th : MedicalThresholds) (s : Globals) : Prop :=
  s.current_hr > th.hr_sepsis_high ∨ s.current_hr < th.hr_sepsis_low ∨
  s.current_spo2 < th.spo2_sepsis_low

instance (th : MedicalThresholds) (t : Nat) (s : Globals) :
    Decidable (CriticalTrigger th t s) :=
  inferInstanceAs (Decidable (_ ∨ _ ∨ _ ∨ _ ∨ _ ∨ _))

instance (th : MedicalThresholds) (t : Nat) (s : Globals) :
    Decidable (SeizureTrigger th t s) :=
  inferInstanceAs (Decidable (_ ∨ _ ∨ _))

instance (th : MedicalThresholds) (t : Nat) (s : Globals) (rms rmsThr : ℚ) :
    Decidable (SeizureTriggerSpec th t s rms rmsThr) :=
  inferInstanceAs (Decidable (_ ∨ _ ∨ _ ∨ _))

instance (th : MedicalThresholds) (s : Globals) :
    Decidable (SepsisTrigger th s) :=
  inferInstanceAs (Decidable (_ ∨ _ ∨ _))

end Combined

/-! ## Signal conditioning shared by the fall-detection variants -/

/-- The accelerometer lines that open every fall-detection variant:
`ax = accel.acceleration.x / 9.80665` (and `ay`, `az`), then
`amag = sqrt(ax*ax + ay*ay + az*az)`. -/
def accelMagG (sqrtf : ℚ → ℚ) (accel : Vec3) : ℚ :=
  let ax := accel.x / 9.80665
  let ay := accel.y / 9.80665
  let az := accel.z / 9.80665
  sqrtf (ax * ax + ay * ay + az * az)

/-- The conversion `gyro.gyro.x * 57.2958` of one axis from rad/s to deg/s. -/
def degPerSec (w : ℚ) : ℚ := w * 57.2958

/-- The gyro magnitude `wmag = sqrt(wx*wx + wy*wy + wz*wz)` in deg/s. -/
def gyroMagDeg (sqrtf : ℚ → ℚ) (gyro : Vec3) : ℚ :=
  let wx := degPerSec gyro.x
  let wy := degPerSec gyro.y
  let wz := degPerSec gyro.z
  sqrtf (wx * wx + wy * wy + wz * wz)

/-- The gyro-spike test `abs(wx) > thr || abs(wy) > thr || abs(wz) > thr`. -/
def gyroSpike (thr : ℚ) (gyro : Vec3) : Prop :=
  |degPerSec gyro.x| > thr ∨ |degPerSec gyro.y| > thr ∨ |degPerSec gyro.z| > thr

instance (thr : ℚ) (gyro : Vec3) : Decidable (gyroSpike thr gyro) :=
  inferInstanceAs (Decidable (_ ∨ _ ∨ _))

/-- The loop `for (i = 0; i < n; i++) sumSq += gyroBuffer[i] * gyroBuffer[i]`. -/
def sumSq (gyroBuffer : List ℚ) (n : Nat) : ℚ :=
  (List.range n).foldl (fun acc i => acc + gyroBuffer.getD i 0 * gyroBuffer.getD i 0) 0

/-! ## iot/fall_detection_threshold.cpp -/

namespace FallThreshold

def FREEFALL_THRESH_G : ℚ := 0.75
def DEBOUNCE_MS : Nat := 100
def FLAG_MS : Nat := 5000

/-- The global variables of the sketch. -/
structure State where
  freefallStart : Nat := 0
  flagRaisedAt : Nat := 0
  inFreefall : Bool := false
  fallFlag : Int := 0
deriving DecidableEq, Repr

/-- One pass of `loop`: `accel` is the accelerometer event, `now` is
`millis()`. -/
def loop (sqrtf : ℚ → ℚ) (accel : Vec3) (now : Nat) (s : State) : State :=
  let amag := accelMagG sqrtf accel
  let s :=
    if amag < FREEFALL_THRESH_G then
      if !s.inFreefall then
        { s with inFreefall := true, freefallStart := now }
      else if usub now s.freefallStart ≥ DEBOUNCE_MS ∧ s.fallFlag = 0 then
        { s with fallFlag := 1, flagRaisedAt := now }
      else s
    else
      { s with inFreefall := false }
  if s.fallFlag = 1 ∧ usub now s.flagRaisedAt ≥ FLAG_MS then
    { s with fallFlag := 0 }
  else s

/-- The input of one pass of `loop`. -/
structure Tick where
  accel : Vec3
  now : Nat
deriving DecidableEq, Repr

/-- The states after each pass of a sequence of passes of `loop`. -/
def trace (sqrtf : ℚ → ℚ) : State → List Tick → List State
  | _, [] => []
  | s, k :: ks => loop sqrtf k.accel k.now s :: trace sqrtf (loop sqrtf k.accel k.now s) ks

/-- The state after a sequence of passes of `loop`. -/
def run (sqrtf : ℚ → ℚ) : State → List Tick → State
  | s, [] => s
  | s, k :: ks => run sqrtf (loop sqrtf k.accel k.now s) ks

end FallThreshold

/-! ## iot/finalimu.cpp -/

namespace FinalImu

def FREEFALL_G : ℚ := 0.5
def GYRO_FALL_DEG_S : ℚ := 100
def SEIZURE_RMS_THR : ℚ := 80
def DEBOUNCE_MS : Nat := 100
def FLAG_MS : Nat := 5000
def SAMPLE_HZ : Nat := 100

/-- The global variables of the sketch. -/
structure State where
  gyroBuffer : List ℚ := List.replicate 100 0
  bufIndex : Nat := 0
  freefallStart : Nat := 0
  flagRaisedAt : Nat := 0
  inFreefall : Bool := false
  fallFlag : Int := 0
  seizureFlag : Int := 0
deriving DecidableEq, Repr

/-- One pass of `loop`: `accel` and `gyro` are the two sensor events, `now`
is `millis()`. -/
def loop (sqrtf : ℚ → ℚ) (accel gyro : Vec3) (now : Nat) (s : State) : State :=
  let amag := accelMagG sqrtf accel
  let wmag := gyroMagDeg sqrtf gyro
  let s :=
    if amag < FREEFALL_G then
      if !s.inFreefall then
        { s with inFreefall := true, freefallStart := now }
      else if usub now s.freefallStart ≥ DEBOUNCE_MS ∧ gyroSpike GYRO_FALL_DEG_S gyro
          ∧ s.fallFlag = 0 then
        { s with fallFlag := 1, flagRaisedAt := now }
      else s
    else
      { s with inFreefall := false }
  let s :=
    if s.fallFlag ≠ 0 ∧ usub now s.flagRaisedAt ≥ FLAG_MS then { s with fallFlag := 0 }
    else s
  let s := { s with gyroBuffer := s.gyroBuffer.set s.bufIndex wmag,
                    bufIndex := s.bufIndex + 1 }
  if s.bufIndex ≥ SAMPLE_HZ then
    let s := { s with bufIndex := 0 }
    let rms := sqrtf (sumSq s.gyroBuffer SAMPLE_HZ / SAMPLE_HZ)
    { s with seizureFlag := if rms > SEIZURE_RMS_THR then 1 else 0 }
  else s

/-- The input of one pass of `loop`. -/
structure Tick where
  accel : Vec3
  gyro : Vec3
  now : Nat
deriving DecidableEq, Repr

/-- The states after each pass of a sequence of passes of `loop`. -/
def trace (sqrtf : ℚ → ℚ) : State → List Tick → List State
  | _, [] => []
  | s, k :: ks =>
    loop sqrtf k.accel k.gyro k.now s :: trace sqrtf (loop sqrtf k.accel k.gyro k.now s) ks

/-- The state after a sequence of passes of `loop`. -/
def run (sqrtf : ℚ → ℚ) : State → List Tick → State
  | s, [] => s
  | s, k :: ks => run sqrtf (loop sqrtf k.accel k.gyro k.now s) ks

end FinalImu

/-! ## iot/webserver-ip-detection.cpp -/

namespace WebServer

def FREEFALL_G : ℚ := 0.5
def GYRO_FALL_DEG_S : ℚ := 100
def SEIZURE_RMS_THR : ℚ := 80
def DEBOUNCE_MS : Nat := 100
def FLAG_MS : Nat := 5000
def SAMPLE_HZ : Nat := 100

/-- The global variables of the sketch that `readSensorData` uses. -/
structure State where
  gyroBuffer : List ℚ := List.replicate 100 0
  bufIndex : Nat := 0
  freefallStart : Nat := 0
  flagRaisedAt : Nat := 0
  inFreefall : Bool := false
  fallFlag : Int := 0
  seizureFlag : Int := 0
  mpuConnected : Bool := false
deriving DecidableEq, Repr

/-- `readSensorData`: `accel` and `gyro` are the outcomes of the two
`getEvent` calls (`none` when the call returns false), `now` is `millis()`.
Returns the new globals and the function result. -/
def readSensorData (sqrtf : ℚ → ℚ) (accel gyro : Option Vec3) (now : Nat)
    (s : State) : State × Bool :=
  match accel with
  | none => (s, false)
  | some accel =>
    match gyro with
    | none => (s, false)
    | some gyro =>
      let amag := accelMagG sqrtf accel
      let wmag := gyroMagDeg sqrtf gyro
      let s :=
        if amag < FREEFALL_G then
          if !s.inFreefall then
            { s with inFreefall := true, freefallStart := now }
          else if usub now s.freefallStart ≥ DEBOUNCE_MS ∧
              gyroSpike GYRO_FALL_DEG_S gyro ∧ s.fallFlag = 0 then
            { s with fallFlag := 1, flagRaisedAt := now }
          else s
        else
          { s with inFreefall := false }
      let s :=
        if s.fallFlag ≠ 0 ∧ usub now s.flagRaisedAt ≥ FLAG_MS then
          { s with fallFlag := 0 }
        else s
      let s := { s with gyroBuffer := s.gyroBuffer.set s.bufIndex wmag,
                        bufIndex := s.bufIndex + 1 }
      let s :=
        if s.bufIndex ≥ SAMPLE_HZ then
          let s := { s with bufIndex := 0 }
          let rms := sqrtf (sumSq s.gyroBuffer SAMPLE_HZ / SAMPLE_HZ)
          { s with seizureFlag := if rms > SEIZURE_RMS_THR then 1 else 0 }
        else s
      (s, true)

/-- The input of one call of `readSensorData` whose two reads succeed. -/
structure Tick where
  accel : Vec3
  gyro : Vec3
  now : Nat
deriving DecidableEq, Repr

/-- The states after each call of a sequence of calls of `readSensorData`
whose reads succeed. -/
def trace (sqrtf : ℚ → ℚ) : State → List Tick → List State
  | _, [] => []
  | s, k :: ks =>
    (readSensorData sqrtf (some k.accel) (some k.gyro) k.now s).1 ::
      trace sqrtf (readSensorData sqrtf (some k.accel) (some k.gyro) k.now s).1 ks

/-- The state after a sequence of calls of `readSensorData` whose reads
succeed. -/
def run (sqrtf : ℚ → ℚ) : State → List Tick → State
  | s, [] => s
  | s, k :: ks => run sqrtf (readSensorData sqrtf (some k.accel) (some k.gyro) k.now s).1 ks

end WebServer

/-! ## iot/newfallseizurelogic.cpp -/

namespace NewLogic

def FREEFALL_G : ℚ := 0.5
def GYRO_FALL_DEG_S : ℚ := 100
def SEIZURE_RMS_THR : ℚ := 80
def DEBOUNCE_MS : Nat := 100
def SAMPLE_DELAY_MS : Nat := 100
def SEIZURE_ALERT_MS : Nat := 13000

/-- The global variables of the sketch that the detector uses. -/
structure State where
  gyroBuffer : List ℚ := List.replicate 100 0
  bufIndex : Nat := 0
  inFreefall : Bool := false
  freefallStart : Nat := 0
  seizureStart : Nat := 0
  fallFlag : Int := 0
  seizureFlag : Int := 0
  mpuConnected : Bool := false
  wasSeizureDetected : Bool := false
deriving DecidableEq, Repr

/-- The handler of `/resetFall`. -/
def resetFall (s : State) : State := { s with fallFlag := 0 }

/-- The handler of `/resetSeizure`. -/
def resetSeizure (s : State) : State :=
  { s with seizureFlag := 0, seizureStart := 0, wasSeizureDetected := false }

/-- `readSensorData`: `accel` and `gyro` are the outcomes of the two
`getEvent` calls (`none` when the call returns false); `tFall` is the value
of `millis()` in the fall block (one of its two calls runs), `tSeizure` the
value of `millis()` at `seizureStart = millis()`. -/
def readSensorData (sqrtf : ℚ → ℚ) (accel gyro : Option Vec3) (tFall tSeizure : Nat)
    (s : State) : State × Bool :=
  match accel with
  | none => (s, false)
  | some accel =>
    match gyro with
    | none => (s, false)
    | some gyro =>
      let amag := accelMagG sqrtf accel
      let s :=
        if amag < FREEFALL_G then
          if !s.inFreefall then
            { s with inFreefall := true, freefallStart := tFall }
          else if usub tFall s.freefallStart ≥ DEBOUNCE_MS ∧
              gyroSpike GYRO_FALL_DEG_S gyro then
            { s with fallFlag := 1 }
          else s
        else
          { s with inFreefall := false }
      let wmag := gyroMagDeg sqrtf gyro
      let s := { s with gyroBuffer := s.gyroBuffer.set s.bufIndex wmag,
                        bufIndex := s.bufIndex + 1 }
      let s :=
        if s.bufIndex ≥ 100 then
          let s := { s with bufIndex := 0 }
          let rms := sqrtf (sumSq s.gyroBuffer 100 / 100)
          let s := { s with wasSeizureDetected := decide (rms > SEIZURE_RMS_THR) }
          if s.wasSeizureDetected then
            if s.seizureFlag = 0 then
              { s with seizureFlag := 1, seizureStart := tSeizure }
            else s
          else s
        else s
      (s, true)

/-- The input of one call of `readSensorData` whose two reads succeed. -/
structure Tick where
  accel : Vec3
  gyro : Vec3
  tFall : Nat
  tSeizure : Nat
deriving DecidableEq, Repr

/-- The states after each call of a sequence of calls of `readSensorData`
whose reads succeed. -/
def trace (sqrtf : ℚ → ℚ) : State → List Tick → List State
  | _, [] => []
  | s, k :: ks =>
    (readSensorData sqrtf (some k.accel) (some k.gyro) k.tFall k.tSeizure s).1 ::
      trace sqrtf (readSensorData sqrtf (some k.accel) (some k.gyro) k.tFall k.tSeizure s).1 ks

/-- The state after a sequence of calls of `readSensorData` whose reads
succeed. -/
def run (sqrtf : ℚ → ℚ) : State → List Tick → State
  | s, [] => s
  | s, k :: ks =>
    run sqrtf (readSensorData sqrtf (some k.accel) (some k.gyro) k.tFall k.tSeizure s).1 ks

/-- The request, if any, that `server.handleClient()` serves in one pass of
`loop`: one of the two reset routes, or a route that changes no global
(`/`, `/data`, not found). -/
inductive Request where
  | resetFall
  | resetSeizure
  | other
deriving DecidableEq, Repr

/-- `server.handleClient()`: runs the handler of the pending request. -/
def handleClient (req : Option Request) (s : State) : State :=
  match req with
  | some Request.resetFall => resetFall s
  | some Request.resetSeizure => resetSeizure s
  | _ => s

/-- The two messages `loop` hands to `sendTelegramAlert`. -/
inductive Telegram where
  | fallDetected
  | severeSeizure
deriving DecidableEq, Repr

/-- The block "Handle seizure flag state" of `loop`, `now` being the value
of `millis()`. -/
def handleSeizureFlag (now : Nat) (s : State) : State :=
  if s.seizureFlag = 1 then
    if !s.wasSeizureDetected then
      { s with seizureFlag := 0, seizureStart := 0 }
    else if usub now s.seizureStart ≥ SEIZURE_ALERT_MS then
      { s with seizureFlag := 2 }
    else s
  else s

/-- `initializeMPU`: `ok` tells whether one of the five `mpu.begin()`
attempts succeeds. -/
def initializeMPU (ok : Bool) (s : State) : State := { s with mpuConnected := ok }

/-- The globals together with the two `static` locals of `loop`. -/
structure LoopState where
  globals : State := {}
  prevFallFlag : Int := 0
  prevSeizureFlag : Int := 0
deriving DecidableEq, Repr

/-- What one pass of `loop` reads from the outside: the pending request, the
value of `millis()` in `loop`, the inputs of `readSensorData`, and the
outcome of `initializeMPU` should it be called. -/
structure LoopIn where
  request : Option Request
  tLoop : Nat
  accel : Option Vec3
  gyro : Option Vec3
  tFall : Nat
  tSeizure : Nat
  reinitOk : Bool
deriving DecidableEq, Repr

/-- One pass of `loop`. Returns the new state and the Telegram alerts sent. -/
def loop (sqrtf : ℚ → ℚ) (k : LoopIn) (ls : LoopState) : LoopState × List Telegram :=
  let s := handleClient k.request ls.globals
  let out := if s.fallFlag = 1 ∧ ls.prevFallFlag = 0 then [Telegram.fallDetected] else []
  let out := if s.seizureFlag = 2 ∧ ls.prevSeizureFlag ≠ 2 then
    out ++ [Telegram.severeSeizure] else out
  let prevFallFlag := s.fallFlag
  let prevSeizureFlag := s.seizureFlag
  let s := handleSeizureFlag k.tLoop s
  let s :=
    if s.mpuConnected then
      let r := readSensorData sqrtf k.accel k.gyro k.tFall k.tSeizure s
      if !r.2 then initializeMPU k.reinitOk r.1 else r.1
    else s
  (⟨s, prevFallFlag, prevSeizureFlag⟩, out)

end NewLogic

/-! # Theorems -/

/-- Without wraparound the unsigned difference is the ordinary one. -/
theorem usub_eq_sub (a b : Nat) (hba : b ≤ a) (ha : a < WORD) : usub a b = a - b := by
  unfold usub WORD at *
  omega

namespace Combined

theorem criticalTrigger_iff (th : MedicalThresholds) (t : Nat) (s : Globals) :
    CriticalTrigger th t s ↔
      ((s.current_hr > th.hr_critical_high ∨ s.current_hr < th.hr_critical_low) ∨
      (s.current_spo2 < th.spo2_critical_low) ∨
      (s.accel_magnitude > th.accel_critical_threshold) ∨
      (s.gyro_magnitude > th.gyro_critical_threshold) ∨
      (s.motion_detected = true ∧
        usub t s.motion_start_time > th.critical_motion_duration)) := by
  unfold CriticalTrigger motionDuration
  cases s.motion_detected <;> simp [or_assoc]

theorem seizureTrigger_iff (th : MedicalThresholds) (t : Nat) (s : Globals) :
    SeizureTrigger th t s ↔
      ((s.current_hr > th.hr_seizure_high) ∨
      (s.current_spo2 < th.spo2_seizure_low) ∨
      (s.motion_detected = true ∧
        usub t s.motion_start_time > th.motion_duration_threshold)) := by
  unfold SeizureTrigger motionDuration
  cases s.motion_detected <;> simp

theorem sepsisTrigger_iff (th : MedicalThresholds) (s : Globals) :
    SepsisTrigger th s ↔
      ((s.current_hr > th.hr_sepsis_high ∨ s.current_hr < th.hr_sepsis_low) ∨
      (s.current_spo2 < th.spo2_sepsis_low)) := by
  unfold SepsisTrigger
  simp [or_assoc]

/-- The globals that `checkMedicalConditions` returns, branch by branch. -/
theorem check_fst (th : MedicalThresholds) (t : Nat) (s : Globals) :
    (checkMedicalConditions th t s).1 =
      (let s0 := { s with sepsis_detected := false, seizure_detected := false,
                          critical_condition := false }
       if CriticalTrigger th t s then
         if usub t s.last_critical_alert > th.critical_cooldown then
           { s0 with critical_condition := true, last_critical_alert := t }
         else { s0 with critical_condition := true }
       else if SeizureTrigger th t s then
         if usub t s.last_seizure_alert > th.seizure_cooldown then
           { s0 with seizure_detected := true, last_seizure_alert := t }
         else { s0 with seizure_detected := true }
       else if SepsisTrigger th s then
         if usub t s.last_sepsis_alert > th.sepsis_cooldown then
           { s0 with sepsis_detected := true, last_sepsis_alert := t }
         else { s0 with sepsis_detected := true }
       else s0) := by
  simp only [criticalTrigger_iff, seizureTrigger_iff, sepsisTrigger_iff]
  unfold checkMedicalConditions
  dsimp only
  split
  · split <;> rfl
  · split
    · split <;> rfl
    · split
      · split <;> rfl
      · rfl

/-- The alert that `checkMedicalConditions` returns, up to its message. -/
theorem check_snd (th : MedicalThresholds) (t : Nat) (s : Globals) :
    ∃ m : List Piece, (checkMedicalConditions th t s).2 =
      (if CriticalTrigger th t s then
         if usub t s.last_critical_alert > th.critical_cooldown then
           some ⟨"CRITICAL", m⟩ else none
       else if SeizureTrigger th t s then
         if usub t s.last_seizure_alert > th.seizure_cooldown then
           some ⟨"SEIZURE", m⟩ else none
       else if SepsisTrigger th s then
         if usub t s.last_sepsis_alert > th.sepsis_cooldown then
           some ⟨"SEPSIS", m⟩ else none
       else none) := by
  simp only [criticalTrigger_iff, seizureTrigger_iff, sepsisTrigger_iff]
  unfold checkMedicalConditions
  dsimp only
  split
  · split
    · exact ⟨_, rfl⟩
    · exact ⟨[], rfl⟩
  · split
    · split
      · exact ⟨_, rfl⟩
      · exact ⟨[], rfl⟩
    · split
      · split
        · exact ⟨_, rfl⟩
        · exact ⟨[], rfl⟩
      · exact ⟨[], rfl⟩

/-- Which tier, if any, a call of `checkMedicalConditions` alerts for. -/
theorem emits_iff (th : MedicalThresholds) (t : Nat) (s : Globals) :
    (Emits (checkMedicalConditions th t s).2 Tier.CRITICAL ↔
      CriticalTrigger th t s ∧ usub t s.last_critical_alert > th.critical_cooldown) ∧
    (Emits (checkMedicalConditions th t s).2 Tier.SEIZURE ↔
      ¬ CriticalTrigger th t s ∧ SeizureTrigger th t s ∧
        usub t s.last_seizure_alert > th.seizure_cooldown) ∧
    (Emits (checkMedicalConditions th t s).2 Tier.SEPSIS ↔
      ¬ CriticalTrigger th t s ∧ ¬ SeizureTrigger th t s ∧ SepsisTrigger th s ∧
        usub t s.last_sepsis_alert > th.sepsis_cooldown) ∧
    ¬ Emits (checkMedicalConditions th t s).2 Tier.NONE ∧
    ((checkMedicalConditions th t s).2 = none ↔
      ∀ X, ¬ Emits (checkMedicalConditions th t s).2 X) := by
  obtain ⟨m, hm⟩ := check_snd th t s
  rw [hm]
  have hX : ∀ (o : Option Alert), (∀ X, ¬ Emits o X) →
      ∀ a, o = some a → a.alert_type ≠ "CRITICAL" ∧ a.alert_type ≠ "SEIZURE" ∧
        a.alert_type ≠ "SEPSIS" := by
    intro o h a ha
    refine ⟨fun hc => h Tier.CRITICAL ⟨a, ha, hc⟩, fun hc => h Tier.SEIZURE ⟨a, ha, hc⟩,
      fun hc => h Tier.SEPSIS ⟨a, ha, hc⟩⟩
  refine ⟨?_, ?_, ?_, ?_, ?_⟩
  · unfold Emits Tier.label; split_ifs <;> simp_all
  · unfold Emits Tier.label; split_ifs <;> simp_all
  · unfold Emits Tier.label; split_ifs <;> simp_all
  · unfold Emits Tier.label; split_ifs <;> simp_all
  · constructor
    · intro h X; rw [h]; rintro ⟨a, ha, -⟩; cases ha
    · intro h
      have := hX _ h
      split_ifs at this ⊢ <;> first | rfl | (exfalso; simpa using this _ rfl)

/-- The three status flags after `checkMedicalConditions`. -/
theorem check_flags (th : MedicalThresholds) (t : Nat) (s : Globals) :
    (checkMedicalConditions th t s).1.critical_condition = decide (CriticalTrigger th t s) ∧
    (checkMedicalConditions th t s).1.seizure_detected =
      decide (¬ CriticalTrigger th t s ∧ SeizureTrigger th t s) ∧
    (checkMedicalConditions th t s).1.sepsis_detected =
      decide (¬ CriticalTrigger th t s ∧ ¬ SeizureTrigger th t s ∧ SepsisTrigger th s) := by
  rw [check_fst]
  by_cases hc : CriticalTrigger th t s <;> by_cases hz : SeizureTrigger th t s <;>
    by_cases hp : SepsisTrigger th s <;>
    simp only [hc, hz, hp, if_true, if_false] <;> (try split_ifs) <;> simp

/-- The displayed tier after `checkMedicalConditions`, from the triggers. -/
theorem check_tier (th : MedicalThresholds) (t : Nat) (s : Globals) :
    statusTier (checkMedicalConditions th t s).1 =
      if CriticalTrigger th t s then Tier.CRITICAL
      else if SeizureTrigger th t s then Tier.SEIZURE
      else if SepsisTrigger th s then Tier.SEPSIS else Tier.NONE := by
  obtain ⟨h1, h2, h3⟩ := check_flags th t s
  unfold statusTier
  rw [h1, h2, h3]
  by_cases hc : CriticalTrigger th t s <;> by_cases hz : SeizureTrigger th t s <;>
    by_cases hp : SepsisTrigger th s <;> simp [hc, hz, hp]

/-- A call alerts for tier `X` exactly when `X` is the tier it classifies
and the time since `X`'s own last alert exceeds `X`'s cooldown. -/
theorem emits_iff_tier (th : MedicalThresholds) (t : Nat) (s : Globals) (X : Tier) :
    Emits (checkMedicalConditions th t s).2 X ↔
      (X ≠ Tier.NONE ∧ statusTier (checkMedicalConditions th t s).1 = X ∧
        usub t (lastAlertOf s X) > cooldownOf th X) := by
  obtain ⟨e1, e2, e3, e4, -⟩ := emits_iff th t s
  rw [check_tier]
  cases X
  · simp [e4]
  · rw [e3]
    by_cases hc : CriticalTrigger th t s <;> by_cases hz : SeizureTrigger th t s <;>
      by_cases hp : SepsisTrigger th s <;> simp [hc, hz, hp, lastAlertOf, cooldownOf]
  · rw [e2]
    by_cases hc : CriticalTrigger th t s <;> by_cases hz : SeizureTrigger th t s <;>
      by_cases hp : SepsisTrigger th s <;> simp [hc, hz, hp, lastAlertOf, cooldownOf]
  · rw [e1]
    by_cases hc : CriticalTrigger th t s <;> by_cases hz : SeizureTrigger th t s <;>
      by_cases hp : SepsisTrigger th s <;> simp [hc, hz, hp, lastAlertOf, cooldownOf]

/-- The timestamp of tier `X` after a call: the current time when the call
alerts for `X`, the old value otherwise. -/
theorem lastAlert_after (th : MedicalThresholds) (t : Nat) (s : Globals) (X : Tier) :
    (Emits (checkMedicalConditions th t s).2 X →
      lastAlertOf (checkMedicalConditions th t s).1 X = t) ∧
    (¬ Emits (checkMedicalConditions th t s).2 X →
      lastAlertOf (checkMedicalConditions th t s).1 X = lastAlertOf s X) := by
  obtain ⟨e1, e2, e3, e4, -⟩ := emits_iff th t s
  rw [check_fst]
  cases X
  · simp [e4, lastAlertOf]
  · rw [e3]
    by_cases hc : CriticalTrigger th t s <;> by_cases hz : SeizureTrigger th t s <;>
      by_cases hp : SepsisTrigger th s <;>
      simp only [hc, hz, hp, if_true, if_false] <;> (try split_ifs) <;>
      simp_all [lastAlertOf]
  · rw [e2]
    by_cases hc : CriticalTrigger th t s <;> by_cases hz : SeizureTrigger th t s <;>
      by_cases hp : SepsisTrigger th s <;>
      simp only [hc, hz, hp, if_true, if_false] <;> (try split_ifs) <;>
      simp_all [lastAlertOf]
  · rw [e1]
    by_cases hc : CriticalTrigger th t s <;> by_cases hz : SeizureTrigger th t s <;>
      by_cases hp : SepsisTrigger th s <;>
      simp only [hc, hz, hp, if_true, if_false] <;> (try split_ifs) <;>
      simp_all [lastAlertOf]

/-- At most one tier is alerted for by one call. -/
theorem emits_unique (th : MedicalThresholds) (t : Nat) (s : Globals) (X Y : Tier)
    (hX : Emits (checkMedicalConditions th t s).2 X)
    (hY : Emits (checkMedicalConditions th t s).2 Y) : X = Y := by
  rw [emits_iff_tier] at hX hY
  rw [← hX.2.1, ← hY.2.1]

/-- `updateSensorReadings` leaves the alert timestamps alone. -/
theorem update_lastAlert (sqrtf : ℚ → ℚ) (pi : ℚ) (th : MedicalThresholds)
    (hr spo2 : ℚ) (a g : Vec3) (now : Nat) (s : Globals) (X : Tier) :
    lastAlertOf (updateSensorReadings sqrtf pi th hr spo2 a g now s) X = lastAlertOf s X := by
  unfold updateSensorReadings
  dsimp only
  split_ifs <;> cases X <;> rfl

/-- One pass of `loop` alerts for tier `X` exactly when `X` is the tier it
displays and the time since `X`'s last alert exceeds `X`'s cooldown. -/
theorem loop_emits_iff (sqrtf : ℚ → ℚ) (pi : ℚ) (th : MedicalThresholds)
    (s : Globals) (k : LoopIn) (X : Tier) :
    Emits (loop sqrtf pi th s k).2 X ↔
      (X ≠ Tier.NONE ∧ statusTier (loop sqrtf pi th s k).1 = X ∧
        usub k.tCheck (lastAlertOf s X) > cooldownOf th X) := by
  unfold loop
  rw [emits_iff_tier, update_lastAlert]

/-- The timestamp of tier `X` after one pass of `loop`. -/
theorem loop_lastAlert (sqrtf : ℚ → ℚ) (pi : ℚ) (th : MedicalThresholds)
    (s : Globals) (k : LoopIn) (X : Tier) :
    (Emits (loop sqrtf pi th s k).2 X → lastAlertOf (loop sqrtf pi th s k).1 X = k.tCheck) ∧
    (¬ Emits (loop sqrtf pi th s k).2 X →
      lastAlertOf (loop sqrtf pi th s k).1 X = lastAlertOf s X) := by
  unfold loop
  have h := lastAlert_after th k.tCheck
    (updateSensorReadings sqrtf pi th k.hr k.spo2 k.a k.g k.tUpdate s) X
  rw [update_lastAlert] at h
  exact h

/-- A pass that displays tier `X` within `X`'s cooldown sends nothing. -/
theorem loop_suppressed (sqrtf : ℚ → ℚ) (pi : ℚ) (th : MedicalThresholds)
    (s : Globals) (k : LoopIn) (X : Tier)
    (htier : statusTier (loop sqrtf pi th s k).1 = X)
    (hcool : ¬ usub k.tCheck (lastAlertOf s X) > cooldownOf th X) :
    (loop sqrtf pi th s k).2 = none := by
  unfold loop at *
  apply (emits_iff th k.tCheck _).2.2.2.2.2
  intro Y hY
  rw [emits_iff_tier, update_lastAlert] at hY
  have hXY : Y = X := by rw [← hY.2.1, htier]
  subst hXY
  exact hcool hY.2.2

theorem run_append (sqrtf : ℚ → ℚ) (pi : ℚ) (th : MedicalThresholds)
    (s : Globals) (l1 l2 : List LoopIn) :
    run sqrtf pi th s (l1 ++ l2) = run sqrtf pi th (run sqrtf pi th s l1) l2 := by
  induction l1 generalizing s with
  | nil => rfl
  | cons k ks ih => exact ih (loop sqrtf pi th s k).1

theorem alerts_append (sqrtf : ℚ → ℚ) (pi : ℚ) (th : MedicalThresholds)
    (s : Globals) (l1 l2 : List LoopIn) :
    alerts sqrtf pi th s (l1 ++ l2) =
      alerts sqrtf pi th s l1 ++ alerts sqrtf pi th (run sqrtf pi th s l1) l2 := by
  induction l1 generalizing s with
  | nil => rfl
  | cons k ks ih =>
    show _ :: alerts sqrtf pi th _ (ks ++ l2) = _
    rw [ih]; rfl

theorem tiers_append (sqrtf : ℚ → ℚ) (pi : ℚ) (th : MedicalThresholds)
    (s : Globals) (l1 l2 : List LoopIn) :
    tiers sqrtf pi th s (l1 ++ l2) =
      tiers sqrtf pi th s l1 ++ tiers sqrtf pi th (run sqrtf pi th s l1) l2 := by
  induction l1 generalizing s with
  | nil => rfl
  | cons k ks ih =>
    show _ :: tiers sqrtf pi th _ (ks ++ l2) = _
    rw [ih]; rfl

/-- After a run, the timestamp of a tier is its initial value or the check
time of one of the passes. -/
theorem lastAlert_run (sqrtf : ℚ → ℚ) (pi : ℚ) (th : MedicalThresholds)
    (X : Tier) (s : Globals) (ks : List LoopIn) :
    lastAlertOf (run sqrtf pi th s ks) X = lastAlertOf s X ∨
      ∃ k ∈ ks, lastAlertOf (run sqrtf pi th s ks) X = k.tCheck := by
  induction ks generalizing s with
  | nil => left; rfl
  | cons k ks ih =>
    simp only [run]
    rcases ih (loop sqrtf pi th s k).1 with h | ⟨k', hk', h⟩
    · by_cases hE : Emits (loop sqrtf pi th s k).2 X
      · right
        exact ⟨k, List.mem_cons_self _ _, by rw [h, (loop_lastAlert sqrtf pi th s k X).1 hE]⟩
      · left
        rw [h, (loop_lastAlert sqrtf pi th s k X).2 hE]
    · right
      exact ⟨k', List.mem_cons_of_mem _ hk', h⟩

/-- While tier `X` stays displayed and the time since its last alert `L`
does not exceed its cooldown, no pass sends an alert and `L` stays. -/
theorem run_suppressed (sqrtf : ℚ → ℚ) (pi : ℚ) (th : MedicalThresholds)
    (X : Tier) (s : Globals) (ks : List LoopIn)
    (htier : ∀ c ∈ tiers sqrtf pi th s ks, c = X)
    (hge : ∀ k ∈ ks, lastAlertOf s X ≤ k.tCheck ∧ k.tCheck < WORD)
    (hcool : ∀ k ∈ ks, k.tCheck - lastAlertOf s X ≤ cooldownOf th X) :
    alerts sqrtf pi th s ks = List.replicate ks.length none ∧
      lastAlertOf (run sqrtf pi th s ks) X = lastAlertOf s X := by
  induction ks generalizing s with
  | nil => exact ⟨rfl, rfl⟩
  | cons k ks ih =>
    have hk := hge k (List.mem_cons_self _ _)
    have hc := hcool k (List.mem_cons_self _ _)
    have ht : statusTier (loop sqrtf pi th s k).1 = X :=
      htier _ (by simp [tiers])
    have hnot : ¬ usub k.tCheck (lastAlertOf s X) > cooldownOf th X := by
      rw [usub_eq_sub _ _ hk.1 hk.2]; omega
    have hnone := loop_suppressed sqrtf pi th s k X ht hnot
    have hnE : ¬ Emits (loop sqrtf pi th s k).2 X := by
      rw [hnone]; rintro ⟨a, ha, -⟩; cases ha
    have hL := (loop_lastAlert sqrtf pi th s k X).2 hnE
    have := ih (loop sqrtf pi th s k).1
      (fun c hc => htier c (by simp only [tiers]; exact List.mem_cons_of_mem _ hc))
      (fun k' hk' => by rw [hL]; exact hge k' (List.mem_cons_of_mem _ hk'))
      (fun k' hk' => by rw [hL]; exact hcool k' (List.mem_cons_of_mem _ hk'))
    simp only [alerts, run, List.length_cons, List.replicate_succ, hnone, this.1, this.2, hL,
      and_self]

/-- C1. After `checkMedicalConditions` at most one of `critical_condition`,
`seizure_detected`, `sepsis_detected` is set, the displayed tier is the one
whose flag is set, and all three flags are clear exactly when no CRITICAL,
SEIZURE or SEPSIS trigger holds. -/
theorem C1_flags_mutually_exclusive (th : MedicalThresholds) (t : Nat) (s : Globals) :
    ((checkMedicalConditions th t s).1.critical_condition.toNat +
      (checkMedicalConditions th t s).1.seizure_detected.toNat +
      (checkMedicalConditions th t s).1.sepsis_detected.toNat ≤ 1) ∧
    (((checkMedicalConditions th t s).1.critical_condition = false ∧
      (checkMedicalConditions th t s).1.seizure_detected = false ∧
      (checkMedicalConditions th t s).1.sepsis_detected = false) ↔
      (¬ CriticalTrigger th t s ∧ ¬ SeizureTrigger th t s ∧ ¬ SepsisTrigger th s)) ∧
    (statusTier (checkMedicalConditions th t s).1 = Tier.NONE ↔
      (¬ CriticalTrigger th t s ∧ ¬ SeizureTrigger th t s ∧ ¬ SepsisTrigger th s)) ∧
    (statusTier (checkMedicalConditions th t s).1 = Tier.CRITICAL ↔
      (checkMedicalConditions th t s).1.critical_condition = true) ∧
    (statusTier (checkMedicalConditions th t s).1 = Tier.SEIZURE ↔
      (checkMedicalConditions th t s).1.seizure_detected = true) ∧
    (statusTier (checkMedicalConditions th t s).1 = Tier.SEPSIS ↔
      (checkMedicalConditions th t s).1.sepsis_detected = true) := by
  obtain ⟨h1, h2, h3⟩ := check_flags th t s
  unfold statusTier
  rw [h1, h2, h3]
  by_cases hc : CriticalTrigger th t s <;> by_cases hz : SeizureTrigger th t s <;>
    by_cases hp : SepsisTrigger th s <;> simp [hc, hz, hp]

/-- C2. The classifier yields CRITICAL (`critical_condition` set, the two
other flags clear) exactly when a CRITICAL trigger holds, whatever the
SEIZURE and SEPSIS triggers are; with the default thresholds, HR = 150 and
SpO2 = 99 yield CRITICAL for every motion input, time and previous state. -/
theorem C2_critical_iff (th : MedicalThresholds) (t : Nat) (s : Globals) :
    (((checkMedicalConditions th t s).1.critical_condition = true ∧
      (checkMedicalConditions th t s).1.seizure_detected = false ∧
      (checkMedicalConditions th t s).1.sepsis_detected = false) ↔
      (s.current_hr > th.hr_critical_high ∨ s.current_hr < th.hr_critical_low ∨
        s.current_spo2 < th.spo2_critical_low ∨
        s.accel_magnitude > th.accel_critical_threshold ∨
        s.gyro_magnitude > th.gyro_critical_threshold ∨
        motionDuration t s > th.critical_motion_duration)) ∧
    (statusTier (checkMedicalConditions th t s).1 = Tier.CRITICAL ↔
      CriticalTrigger th t s) ∧
    ((checkMedicalConditions thresholds t
        { s with current_hr := 150, current_spo2 := 99 }).1.critical_condition = true ∧
      (checkMedicalConditions thresholds t
        { s with current_hr := 150, current_spo2 := 99 }).1.seizure_detected = false ∧
      (checkMedicalConditions thresholds t
        { s with current_hr := 150, current_spo2 := 99 }).1.sepsis_detected = false) := by
  have key : ∀ (th : MedicalThresholds) (s : Globals),
      ((checkMedicalConditions th t s).1.critical_condition = true ∧
      (checkMedicalConditions th t s).1.seizure_detected = false ∧
      (checkMedicalConditions th t s).1.sepsis_detected = false) ↔
      CriticalTrigger th t s := by
    intro th s
    obtain ⟨h1, h2, h3⟩ := check_flags th t s
    rw [h1, h2, h3]
    by_cases hc : CriticalTrigger th t s <;> simp [hc]
  refine ⟨key th s, ?_, ?_⟩
  · obtain ⟨h1, -, -⟩ := check_flags th t s
    unfold statusTier
    rw [h1]
    by_cases hc : CriticalTrigger th t s
    · simp [hc]
    · simp only [hc, decide_False, Bool.false_eq_true, if_false, iff_false]
      split_ifs <;> simp
  · rw [key]
    left
    show (150 : ℚ) > thresholds.hr_critical_high
    norm_num [thresholds]

/-- C3 as stated fails: with normal vitals, no motion and a gyro RMS of 90
above a `seizure_rms_threshold` of 80 the SEIZURE row of the rule table
matches, yet `checkMedicalConditions` does not set `seizure_detected`. -/
theorem C3_rms_trigger_counterexample :
    ¬ (∀ (th : MedicalThresholds) (t : Nat) (s : Globals) (rms rmsThr : ℚ),
        ¬ CriticalTrigger th t s →
        (((checkMedicalConditions th t s).1.seizure_detected = true ∧
          (checkMedicalConditions th t s).1.critical_condition = false ∧
          (checkMedicalConditions th t s).1.sepsis_detected = false) ↔
          SeizureTriggerSpec th t s rms rmsThr)) := by
  intro h
  have h0 := h thresholds 1000
    { current_hr := 70, current_spo2 := 98, accel_magnitude := 1 } 90 80 (by decide)
  have h1 : SeizureTriggerSpec thresholds 1000
      { current_hr := 70, current_spo2 := 98, accel_magnitude := 1 } 90 80 := by decide
  have h2 := (h0.mpr h1).1
  revert h2
  decide

/-- C3, amended. On every input with no CRITICAL trigger the classifier
yields SEIZURE (`seizure_detected` set, the two other flags clear) exactly
when HR > hr_seizure_high, or SpO2 < spo2_seizure_low, or the
sustained-motion duration exceeds motion_duration_threshold. -/
theorem C3_seizure_iff (th : MedicalThresholds) (t : Nat) (s : Globals)
    (hcrit : ¬ CriticalTrigger th t s) :
    ((checkMedicalConditions th t s).1.seizure_detected = true ∧
      (checkMedicalConditions th t s).1.critical_condition = false ∧
      (checkMedicalConditions th t s).1.sepsis_detected = false) ↔
      (s.current_hr > th.hr_seizure_high ∨ s.current_spo2 < th.spo2_seizure_low ∨
        motionDuration t s > th.motion_duration_threshold) := by
  obtain ⟨h1, h2, h3⟩ := check_flags th t s
  rw [h1, h2, h3]
  change _ ↔ SeizureTrigger th t s
  by_cases hz : SeizureTrigger th t s <;> simp [hcrit, hz]

/-- C3, amended, at a resting patient with motion sustained for 15 s. -/
theorem C3_seizure_iff_witness :
    ¬ CriticalTrigger thresholds 20000
        { current_hr := 70, current_spo2 := 98, accel_magnitude := 4,
          motion_detected := true, motion_start_time := 5000 } ∧
    ((checkMedicalConditions thresholds 20000
        { current_hr := 70, current_spo2 := 98, accel_magnitude := 4,
          motion_detected := true, motion_start_time := 5000 }).1.seizure_detected = true ∧
      (checkMedicalConditions thresholds 20000
        { current_hr := 70, current_spo2 := 98, accel_magnitude := 4,
          motion_detected := true, motion_start_time := 5000 }).1.critical_condition = false ∧
      (checkMedicalConditions thresholds 20000
        { current_hr := 70, current_spo2 := 98, accel_magnitude := 4,
          motion_detected := true, motion_start_time := 5000 }).1.sepsis_detected = false) :=
  ⟨by decide, (C3_seizure_iff thresholds 20000 _ (by decide)).mpr (by decide)⟩

/-- C4. On every input with neither a CRITICAL nor a SEIZURE trigger the
classifier yields SEPSIS (`sepsis_detected` set, the two other flags clear)
exactly when HR > hr_sepsis_high, or HR < hr_sepsis_low, or
SpO2 < spo2_sepsis_low; with the default thresholds, HR = 70, SpO2 = 93,
acceleration 1 g, gyro 0 and no motion yield SEPSIS with `seizure_detected`
and `critical_condition` clear, at every time and from every previous
state. -/
theorem C4_sepsis_iff (th : MedicalThresholds) (t : Nat) (s : Globals)
    (hcrit : ¬ CriticalTrigger th t s) (hseiz : ¬ SeizureTrigger th t s) :
    (((checkMedicalConditions th t s).1.sepsis_detected = true ∧
      (checkMedicalConditions th t s).1.seizure_detected = false ∧
      (checkMedicalConditions th t s).1.critical_condition = false) ↔
      (s.current_hr > th.hr_sepsis_high ∨ s.current_hr < th.hr_sepsis_low ∨
        s.current_spo2 < th.spo2_sepsis_low)) ∧
    (∀ (t0 : Nat) (s0 : Globals),
      (checkMedicalConditions thresholds t0
        { s0 with current_hr := 70, current_spo2 := 93, accel_magnitude := 1,
                  gyro_magnitude := 0, motion_detected := false }).1.sepsis_detected = true ∧
      (checkMedicalConditions thresholds t0
        { s0 with current_hr := 70, current_spo2 := 93, accel_magnitude := 1,
                  gyro_magnitude := 0, motion_detected := false }).1.seizure_detected = false ∧
      (checkMedicalConditions thresholds t0
        { s0 with current_hr := 70, current_spo2 := 93, accel_magnitude := 1,
                  gyro_magnitude := 0, motion_detected := false }).1.critical_condition = false) := by
  constructor
  · obtain ⟨h1, h2, h3⟩ := check_flags th t s
    rw [h1, h2, h3]
    change _ ↔ SepsisTrigger th s
    by_cases hp : SepsisTrigger th s <;> simp [hcrit, hseiz, hp]
  · intro t0 s0
    obtain ⟨h1, h2, h3⟩ := check_flags thresholds t0
      { s0 with current_hr := 70, current_spo2 := 93, accel_magnitude := 1,
                gyro_magnitude := 0, motion_detected := false }
    rw [h1, h2, h3]
    have hc : ¬ CriticalTrigger thresholds t0
        { s0 with current_hr := 70, current_spo2 := 93, accel_magnitude := 1,
                  gyro_magnitude := 0, motion_detected := false } := by
      norm_num [CriticalTrigger, motionDuration, thresholds]
    have hz : ¬ SeizureTrigger thresholds t0
        { s0 with current_hr := 70, current_spo2 := 93, accel_magnitude := 1,
                  gyro_magnitude := 0, motion_detected := false } := by
      norm_num [SeizureTrigger, motionDuration, thresholds]
    have hp : SepsisTrigger thresholds
        { s0 with current_hr := 70, current_spo2 := 93, accel_magnitude := 1,
                  gyro_magnitude := 0, motion_detected := false } := by
      norm_num [SepsisTrigger, thresholds]
    simp [hc, hz, hp]

/-- C4 at HR = 105, SpO2 = 98 and no motion. -/
theorem C4_sepsis_iff_witness :
    (¬ CriticalTrigger thresholds 1000 { current_hr := 105, current_spo2 := 98 } ∧
      ¬ SeizureTrigger thresholds 1000 { current_hr := 105, current_spo2 := 98 }) ∧
    ((checkMedicalConditions thresholds 1000
        { current_hr := 105, current_spo2 := 98 }).1.sepsis_detected = true ∧
      (checkMedicalConditions thresholds 1000
        { current_hr := 105, current_spo2 := 98 }).1.seizure_detected = false ∧
      (checkMedicalConditions thresholds 1000
        { current_hr := 105, current_spo2 := 98 }).1.critical_condition = false) :=
  ⟨⟨by decide, by decide⟩,
    ((C4_sepsis_iff thresholds 1000 { current_hr := 105, current_spo2 := 98 }
      (by decide) (by decide)).1).mpr (by decide)⟩

end Combined

theorem usub_self (a : Nat) : usub a a = 0 := by
  unfold usub WORD
  omega

/-- The square root of a square: `sqrt(v*v)` is `v` for `v ≥ 0`. -/
theorem isSqrt_sq_iff (v m : ℚ) (hv : 0 ≤ v) : IsSqrt (v * v) m ↔ m = v := by
  unfold IsSqrt
  constructor
  · rintro ⟨hm, h⟩
    have h2 : (m - v) * (m + v) = 0 := by ring_nf; ring_nf at h; linarith
    rcases mul_eq_zero.mp h2 with h3 | h3
    · linarith
    · have hm0 : m = 0 := by linarith
      have hv0 : v = 0 := by linarith
      rw [hm0, hv0]
  · rintro rfl
    exact ⟨hv, rfl⟩

/-- C5, evaluated on the code. The fall-detection variants divide each axis
by 9.80665 before the `sqrt`, so a device at rest, sample (0, 0, 9.80665)
m/s^2, gets the square root of 1. `updateSensorReadings` of
`combinedsense.cpp` takes the `sqrt` of the raw axes: at rest its
`accel_magnitude` is the square root of 9.80665^2, which is 9.80665 and not
1; that exceeds `accel_critical_threshold` = 5.0 (commented `// g`), so a
resting device with normal vitals (HR 70, SpO2 98) is classified CRITICAL
and an alert tagged "Violent Motion" is sent. -/
theorem C5_combined_magnitude_not_in_g :
    (∀ (sqrtf : ℚ → ℚ) (a : Vec3),
      accelMagG sqrtf a =
        sqrtf ((a.x / 9.80665) ^ 2 + (a.y / 9.80665) ^ 2 + (a.z / 9.80665) ^ 2)) ∧
    (∀ sqrtf : ℚ → ℚ, accelMagG sqrtf ⟨0, 0, 9.80665⟩ = sqrtf 1) ∧
    (∀ m : ℚ, IsSqrt 1 m ↔ m = 1) ∧
    (∀ (sqrtf : ℚ → ℚ) (pi : ℚ) (th : Combined.MedicalThresholds) (hr spo2 : ℚ)
        (a g : Vec3) (now : Nat) (s : Combined.Globals),
      (Combined.updateSensorReadings sqrtf pi th hr spo2 a g now s).accel_magnitude =
        sqrtf (a.x * a.x + a.y * a.y + a.z * a.z)) ∧
    (∀ m : ℚ, IsSqrt (Combined.accelSumSq ⟨0, 0, 9.80665⟩) m ↔ m = 9.80665) ∧
    (Combined.updateSensorReadings qsqrt (355 / 113) Combined.thresholds 70 98
        ⟨0, 0, 9.80665⟩ ⟨0, 0, 0⟩ 100000 {}).accel_magnitude = 9.80665 ∧
    Combined.statusTier (Combined.loop qsqrt (355 / 113) Combined.thresholds {}
        ⟨70, 98, ⟨0, 0, 9.80665⟩, ⟨0, 0, 0⟩, 100000, 100000⟩).1 = Combined.Tier.CRITICAL ∧
    (Combined.loop qsqrt (355 / 113) Combined.thresholds {}
        ⟨70, 98, ⟨0, 0, 9.80665⟩, ⟨0, 0, 0⟩, 100000, 100000⟩).2 =
      some ⟨"CRITICAL", [Combined.Piece.text "CRITICAL ALERT! ",
        Combined.Piece.text "Violent Motion ", Combined.Piece.vitals 70 98]⟩ := by
  refine ⟨?_, ?_, ?_, ?_, ?_, by decide!, by decide!, by decide!⟩
  · intro sqrtf a
    simp only [accelMagG, pow_two]
  · intro sqrtf
    simp only [accelMagG]
    norm_num
  · intro m
    have := isSqrt_sq_iff 1 m (by norm_num)
    simpa using this
  · intro sqrtf pi th hr spo2 a g now s
    unfold Combined.updateSensorReadings
    dsimp only
    split_ifs <;> rfl
  · intro m
    have h : Combined.accelSumSq ⟨0, 0, 9.80665⟩ = (9.80665 : ℚ) * 9.80665 := by
      simp only [Combined.accelSumSq]
      norm_num
    rw [h]
    have := isSqrt_sq_iff 9.80665 m (by norm_num)
    simpa using this

namespace Combined

/-- C6. Let a pass of `loop` at time `t0` send an alert of tier `X`, and let
`X` stay the displayed tier on the following passes, at strictly increasing
32-bit times. Then no pass sends an alert while `t - t0` does not exceed
`X`'s cooldown; the first pass with `t - t0` above the cooldown sends
exactly one alert, of tier `X`; the passes after it send nothing while their
distance to that pass does not exceed the cooldown. Moreover, in any run at
strictly increasing 32-bit times, two passes that both send an alert of tier
`X` are more than one cooldown apart. -/
theorem C6_cooldown_gate (sqrtf : ℚ → ℚ) (pi : ℚ) (th : MedicalThresholds) (X : Tier)
    (s0 : Globals) (k0 : LoopIn) (pre : List LoopIn) (k1 : LoopIn) (post : List LoopIn)
    (hinc : List.Pairwise (fun a b : LoopIn => a.tCheck < b.tCheck)
      (k0 :: (pre ++ k1 :: post)))
    (hword : ∀ k ∈ k0 :: (pre ++ k1 :: post), k.tCheck < WORD)
    (hemit : Emits (loop sqrtf pi th s0 k0).2 X)
    (hstay : ∀ c ∈ tiers sqrtf pi th (loop sqrtf pi th s0 k0).1 (pre ++ k1 :: post), c = X)
    (hpre : ∀ k ∈ pre, k.tCheck - k0.tCheck ≤ cooldownOf th X)
    (hk1 : k1.tCheck - k0.tCheck > cooldownOf th X)
    (hpost : ∀ k ∈ post, k.tCheck - k1.tCheck ≤ cooldownOf th X) :
    (∃ a : Alert, a.alert_type = X.label ∧
      alerts sqrtf pi th (loop sqrtf pi th s0 k0).1 (pre ++ k1 :: post) =
        List.replicate pre.length none ++ some a :: List.replicate post.length none) ∧
    (∀ (s : Globals) (ki : LoopIn) (mid : List LoopIn) (kj : LoopIn),
      List.Pairwise (fun a b : LoopIn => a.tCheck < b.tCheck) (ki :: (mid ++ [kj])) →
      kj.tCheck < WORD →
      Emits (loop sqrtf pi th s ki).2 X →
      Emits (loop sqrtf pi th (run sqrtf pi th (loop sqrtf pi th s ki).1 mid) kj).2 X →
      ki.tCheck + cooldownOf th X < kj.tCheck) := by
  constructor
  · -- the state after the emitting pass
    have hL0 := (loop_lastAlert sqrtf pi th s0 k0 X).1 hemit
    have hXne : X ≠ Tier.NONE := ((loop_emits_iff sqrtf pi th s0 k0 X).1 hemit).1
    rw [List.pairwise_cons] at hinc
    obtain ⟨hk0lt, hrest⟩ := hinc
    rw [List.pairwise_append] at hrest
    obtain ⟨-, hk1post, -⟩ := hrest
    rw [List.pairwise_cons] at hk1post
    rw [tiers_append] at hstay
    -- suppressed passes
    have hsup := run_suppressed sqrtf pi th X (loop sqrtf pi th s0 k0).1 pre
      (fun c hc => hstay c (List.mem_append_left _ hc))
      (fun k hk => by
        rw [hL0]
        exact ⟨le_of_lt (hk0lt k (List.mem_append_left _ hk)),
          hword k (List.mem_cons_of_mem _ (List.mem_append_left _ hk))⟩)
      (fun k hk => by rw [hL0]; exact hpre k hk)
    -- the pass after the cooldown
    set s1 := run sqrtf pi th (loop sqrtf pi th s0 k0).1 pre with hs1
    have hk1t : statusTier (loop sqrtf pi th s1 k1).1 = X :=
      hstay _ (List.mem_append_right _ (by simp [tiers]))
    have hk1w : k1.tCheck < WORD :=
      hword k1 (List.mem_cons_of_mem _ (List.mem_append_right _ (List.mem_cons_self _ _)))
    have hk1gt : k0.tCheck < k1.tCheck :=
      hk0lt k1 (List.mem_append_right _ (List.mem_cons_self _ _))
    have hE1 : Emits (loop sqrtf pi th s1 k1).2 X := by
      rw [loop_emits_iff]
      refine ⟨hXne, hk1t, ?_⟩
      rw [hsup.2, hL0, usub_eq_sub _ _ (le_of_lt hk1gt) hk1w]
      exact hk1
    have hL1 := (loop_lastAlert sqrtf pi th s1 k1 X).1 hE1
    obtain ⟨a, ha, hat⟩ := hE1
    -- suppressed again
    have hsup2 := run_suppressed sqrtf pi th X (loop sqrtf pi th s1 k1).1 post
      (fun c hc => hstay c (List.mem_append_right _ (by
        simp only [tiers]; exact List.mem_cons_of_mem _ hc)))
      (fun k hk => by
        rw [hL1]
        exact ⟨le_of_lt (hk1post.1 k hk),
          hword k (List.mem_cons_of_mem _ (List.mem_append_right _
            (List.mem_cons_of_mem _ hk)))⟩)
      (fun k hk => by rw [hL1]; exact hpost k hk)
    refine ⟨a, hat, ?_⟩
    rw [alerts_append, hsup.1]
    simp only [alerts, ← hs1, ha, hsup2.1]
  · intro s ki mid kj hp hw hEi hEj
    have hLi := (loop_lastAlert sqrtf pi th s ki X).1 hEi
    rw [List.pairwise_cons] at hp
    obtain ⟨hki, hmid⟩ := hp
    rw [List.pairwise_append] at hmid
    obtain ⟨-, -, hmidj⟩ := hmid
    have hj := ((loop_emits_iff sqrtf pi th _ kj X).1 hEj).2.2
    rcases lastAlert_run sqrtf pi th X (loop sqrtf pi th s ki).1 mid with h | ⟨k, hk, h⟩
    · rw [h, hLi] at hj
      have hlt : ki.tCheck < kj.tCheck := hki kj (by simp)
      rw [usub_eq_sub _ _ (le_of_lt hlt) hw] at hj
      omega
    · rw [h] at hj
      have hlt : k.tCheck < kj.tCheck := hmidj k hk kj (by simp)
      have hlt2 : ki.tCheck < k.tCheck := hki k (by simp [hk])
      rw [usub_eq_sub _ _ (le_of_lt hlt) hw] at hj
      omega

/-- C6 on a run with HR = 150: alert at 100 s, silence at 130 s, one alert
at 170 s, silence at 200 s. -/
theorem C6_cooldown_gate_witness :
    ∃ a : Alert, a.alert_type = Tier.CRITICAL.label ∧
      alerts qsqrt (355 / 113) thresholds
        (loop qsqrt (355 / 113) thresholds {} ⟨150, 99, ⟨0, 0, 1⟩, ⟨0, 0, 0⟩, 99990, 100000⟩).1
        ([⟨150, 99, ⟨0, 0, 1⟩, ⟨0, 0, 0⟩, 129990, 130000⟩] ++
          ⟨150, 99, ⟨0, 0, 1⟩, ⟨0, 0, 0⟩, 169990, 170000⟩ ::
          [⟨150, 99, ⟨0, 0, 1⟩, ⟨0, 0, 0⟩, 199990, 200000⟩]) =
        List.replicate 1 none ++ some a :: List.replicate 1 none :=
  (C6_cooldown_gate qsqrt (355 / 113) thresholds Tier.CRITICAL {}
    ⟨150, 99, ⟨0, 0, 1⟩, ⟨0, 0, 0⟩, 99990, 100000⟩
    [⟨150, 99, ⟨0, 0, 1⟩, ⟨0, 0, 0⟩, 129990, 130000⟩]
    ⟨150, 99, ⟨0, 0, 1⟩, ⟨0, 0, 0⟩, 169990, 170000⟩
    [⟨150, 99, ⟨0, 0, 1⟩, ⟨0, 0, 0⟩, 199990, 200000⟩]
    (by decide!) (by decide!) (by decide!) (by decide!) (by decide!) (by decide!)
    (by decide!)).1

/-- C7. In one call of `checkMedicalConditions`: when no alert is sent the
three `last_*_alert` timestamps keep their values, even though a tier flag
may be set; when an alert of tier `X` is sent, `X`'s timestamp becomes the
current time and the two other timestamps keep their values; and whether a
CRITICAL (resp. SEIZURE) alert is sent does not depend on the timestamps of
the lower tiers. -/
theorem C7_timestamp_frame (th : MedicalThresholds) (t : Nat) (s : Globals) :
    ((checkMedicalConditions th t s).2 = none →
      (checkMedicalConditions th t s).1.last_critical_alert = s.last_critical_alert ∧
      (checkMedicalConditions th t s).1.last_seizure_alert = s.last_seizure_alert ∧
      (checkMedicalConditions th t s).1.last_sepsis_alert = s.last_sepsis_alert) ∧
    (∀ X, Emits (checkMedicalConditions th t s).2 X →
      lastAlertOf (checkMedicalConditions th t s).1 X = t ∧
      ∀ Y, Y ≠ X →
        lastAlertOf (checkMedicalConditions th t s).1 Y = lastAlertOf s Y) ∧
    (∀ a b : Nat,
      (Emits (checkMedicalConditions th t
          { s with last_seizure_alert := a, last_sepsis_alert := b }).2 Tier.CRITICAL ↔
        Emits (checkMedicalConditions th t s).2 Tier.CRITICAL)) ∧
    (∀ b : Nat,
      (Emits (checkMedicalConditions th t { s with last_sepsis_alert := b }).2 Tier.SEIZURE ↔
        Emits (checkMedicalConditions th t s).2 Tier.SEIZURE)) ∧
    (Emits (checkMedicalConditions th t s).2 Tier.CRITICAL ↔
      CriticalTrigger th t s ∧ usub t s.last_critical_alert > th.critical_cooldown) := by
  refine ⟨?_, ?_, ?_, ?_, (emits_iff th t s).1⟩
  · intro hnone
    have hno := (emits_iff th t s).2.2.2.2.1 hnone
    exact ⟨(lastAlert_after th t s Tier.CRITICAL).2 (hno _),
      (lastAlert_after th t s Tier.SEIZURE).2 (hno _),
      (lastAlert_after th t s Tier.SEPSIS).2 (hno _)⟩
  · intro X hX
    refine ⟨(lastAlert_after th t s X).1 hX, ?_⟩
    intro Y hY
    apply (lastAlert_after th t s Y).2
    intro hE
    exact hY (emits_unique th t s Y X hE hX)
  · intro a b
    rw [(emits_iff th t _).1, (emits_iff th t s).1]
    simp only [CriticalTrigger, motionDuration]
  · intro b
    rw [(emits_iff th t _).2.1, (emits_iff th t s).2.1]
    simp only [CriticalTrigger, SeizureTrigger, motionDuration]

end Combined

namespace FallThreshold

/-- A sub-threshold pass from the idle state starts the observation. -/
theorem thr_loop_start (sqrtf : ℚ → ℚ) (accel : Vec3) (now : Nat) (s : State)
    (hlow : accelMagG sqrtf accel < FREEFALL_THRESH_G) (hin : s.inFreefall = false)
    (hflag : s.fallFlag = 0) :
    (loop sqrtf accel now s).inFreefall = true ∧
    (loop sqrtf accel now s).freefallStart = now ∧
    (loop sqrtf accel now s).fallFlag = 0 := by
  unfold loop
  simp only [hlow, hin, hflag, if_true]
  split_ifs <;> simp_all

/-- A sub-threshold pass before the debounce time keeps observing. -/
theorem thr_loop_early (sqrtf : ℚ → ℚ) (accel : Vec3) (now : Nat) (s : State)
    (hlow : accelMagG sqrtf accel < FREEFALL_THRESH_G) (hin : s.inFreefall = true)
    (hflag : s.fallFlag = 0) (ht : usub now s.freefallStart < DEBOUNCE_MS) :
    (loop sqrtf accel now s).inFreefall = true ∧
    (loop sqrtf accel now s).freefallStart = s.freefallStart ∧
    (loop sqrtf accel now s).fallFlag = 0 := by
  have ht' : ¬ (usub now s.freefallStart ≥ DEBOUNCE_MS) := by omega
  unfold loop
  simp only [hlow, hin, hflag, ht', if_true]
  split_ifs <;> simp_all

/-- A pass at or above the threshold leaves a clear flag clear. -/
theorem thr_loop_above (sqrtf : ℚ → ℚ) (accel : Vec3) (now : Nat) (s : State)
    (hhigh : FREEFALL_THRESH_G ≤ accelMagG sqrtf accel) (hflag : s.fallFlag = 0) :
    (loop sqrtf accel now s).inFreefall = false ∧
    (loop sqrtf accel now s).fallFlag = 0 := by
  have h' : ¬ (accelMagG sqrtf accel < FREEFALL_THRESH_G) := not_lt.mpr hhigh
  unfold loop
  simp only [h', hflag, if_false]
  split_ifs <;> simp_all

theorem thr_trace_append (sqrtf : ℚ → ℚ) (s : State) (l1 l2 : List Tick) :
    trace sqrtf s (l1 ++ l2) = trace sqrtf s l1 ++ trace sqrtf (run sqrtf s l1) l2 := by
  induction l1 generalizing s with
  | nil => rfl
  | cons k ks ih =>
    show _ :: trace sqrtf _ (ks ++ l2) = _
    rw [ih]; rfl

theorem thr_run_append (sqrtf : ℚ → ℚ) (s : State) (l1 l2 : List Tick) :
    run sqrtf s (l1 ++ l2) = run sqrtf (run sqrtf s l1) l2 := by
  induction l1 generalizing s with
  | nil => rfl
  | cons k ks ih => exact ih _

theorem thr_trace_length (sqrtf : ℚ → ℚ) (s : State) (l : List Tick) :
    (trace sqrtf s l).length = l.length := by
  induction l generalizing s with
  | nil => rfl
  | cons k ks ih => simp only [trace, List.length_cons, ih]

/-- While observing, passes below the threshold and before the debounce
time leave the flag clear and the observation start unchanged. -/
theorem thr_trace_observing (sqrtf : ℚ → ℚ) (ks : List Tick) (s : State)
    (hin : s.inFreefall = true) (hflag : s.fallFlag = 0)
    (hk : ∀ k ∈ ks, accelMagG sqrtf k.accel < FREEFALL_THRESH_G ∧
      usub k.now s.freefallStart < DEBOUNCE_MS) :
    (∀ st ∈ trace sqrtf s ks, st.fallFlag = 0) ∧
    (run sqrtf s ks).inFreefall = true ∧ (run sqrtf s ks).fallFlag = 0 ∧
    (run sqrtf s ks).freefallStart = s.freefallStart := by
  induction ks generalizing s with
  | nil => exact ⟨fun st h => (by cases h), hin, hflag, rfl⟩
  | cons k ks ih =>
    have h1 := hk k (List.mem_cons_self _ _)
    obtain ⟨a, b, c⟩ := thr_loop_early sqrtf k.accel k.now s h1.1 hin hflag h1.2
    have := ih (loop sqrtf k.accel k.now s) a c
      (fun k' hk' => by rw [b]; exact hk k' (List.mem_cons_of_mem _ hk'))
    refine ⟨?_, this.2.1, this.2.2.1, by rw [← b]; exact this.2.2.2⟩
    intro st hst
    simp only [trace, List.mem_cons] at hst
    rcases hst with rfl | hst
    · exact c
    · exact this.1 st hst

/-- Bounce rejection for `fall_detection_threshold.cpp`. -/
theorem thr_bounce (sqrtf : ℚ → ℚ) (s0 : State) (below : List Tick) (last : Tick)
    (hflag : s0.fallFlag = 0) (hin : s0.inFreefall = false)
    (hlow : ∀ k ∈ below, accelMagG sqrtf k.accel < FREEFALL_THRESH_G)
    (hhigh : FREEFALL_THRESH_G ≤ accelMagG sqrtf last.accel)
    (hinc : List.Pairwise (fun a b : Tick => a.now ≤ b.now) (below ++ [last]))
    (hword : ∀ k ∈ below ++ [last], k.now < WORD)
    (hspan : ∀ a ∈ below, ∀ b ∈ below, b.now - a.now < DEBOUNCE_MS) :
    ∀ st ∈ trace sqrtf s0 (below ++ [last]), st.fallFlag = 0 := by
  cases below with
  | nil =>
    intro st hst
    simp only [List.nil_append, trace, List.mem_singleton] at hst
    rw [hst]
    exact (thr_loop_above sqrtf last.accel last.now s0 hhigh hflag).2
  | cons first rest =>
    obtain ⟨a, b, c⟩ := thr_loop_start sqrtf first.accel first.now s0
      (hlow first (List.mem_cons_self _ _)) hin hflag
    rw [List.cons_append, List.pairwise_cons] at hinc
    have hobs := thr_trace_observing sqrtf rest (loop sqrtf first.accel first.now s0) a c
      (fun k hk => by
        refine ⟨hlow k (List.mem_cons_of_mem _ hk), ?_⟩
        rw [b, usub_eq_sub _ _ (hinc.1 k (List.mem_append_left _ hk))
          (hword k (List.mem_cons_of_mem _ (List.mem_append_left _ hk)))]
        exact hspan first (List.mem_cons_self _ _) k (List.mem_cons_of_mem _ hk))
    intro st hst
    rw [List.cons_append] at hst
    simp only [trace, List.mem_cons] at hst
    rcases hst with rfl | hst
    · exact c
    · rw [thr_trace_append] at hst
      rcases List.mem_append.mp hst with h | h
      · exact hobs.1 st h
      · simp only [trace, List.mem_singleton] at h
        rw [h]
        exact (thr_loop_above sqrtf last.accel last.now _ hhigh hobs.2.2.1).2

end FallThreshold

namespace FinalImu

/-- A sub-threshold pass from the idle state starts the observation. -/
theorem imu_loop_start (sqrtf : ℚ → ℚ) (accel gyro : Vec3) (now : Nat) (s : State)
    (hlow : accelMagG sqrtf accel < FREEFALL_G) (hin : s.inFreefall = false)
    (hflag : s.fallFlag = 0) :
    (loop sqrtf accel gyro now s).inFreefall = true ∧
    (loop sqrtf accel gyro now s).freefallStart = now ∧
    (loop sqrtf accel gyro now s).fallFlag = 0 := by
  unfold loop
  simp only [hlow, hin, hflag, if_true]
  split_ifs <;> simp_all

/-- A sub-threshold pass before the debounce time keeps observing. -/
theorem imu_loop_early (sqrtf : ℚ → ℚ) (accel gyro : Vec3) (now : Nat) (s : State)
    (hlow : accelMagG sqrtf accel < FREEFALL_G) (hin : s.inFreefall = true)
    (hflag : s.fallFlag = 0) (ht : usub now s.freefallStart < DEBOUNCE_MS) :
    (loop sqrtf accel gyro now s).inFreefall = true ∧
    (loop sqrtf accel gyro now s).freefallStart = s.freefallStart ∧
    (loop sqrtf accel gyro now s).fallFlag = 0 := by
  have ht' : ¬ (usub now s.freefallStart ≥ DEBOUNCE_MS) := by omega
  unfold loop
  simp only [hlow, hin, hflag, ht', if_true]
  split_ifs <;> simp_all

/-- A pass at or above the threshold leaves a clear flag clear. -/
theorem imu_loop_above (sqrtf : ℚ → ℚ) (accel gyro : Vec3) (now : Nat) (s : State)
    (hhigh : FREEFALL_G ≤ accelMagG sqrtf accel) (hflag : s.fallFlag = 0) :
    (loop sqrtf accel gyro now s).inFreefall = false ∧
    (loop sqrtf accel gyro now s).fallFlag = 0 := by
  have h' : ¬ (accelMagG sqrtf accel < FREEFALL_G) := not_lt.mpr hhigh
  unfold loop
  simp only [h', hflag, if_false]
  split_ifs <;> simp_all

/-- The confirming pass raises the flag and stamps it. -/
theorem imu_loop_raise (sqrtf : ℚ → ℚ) (accel gyro : Vec3) (now : Nat) (s : State)
    (hlow : accelMagG sqrtf accel < FREEFALL_G) (hin : s.inFreefall = true)
    (hflag : s.fallFlag = 0) (ht : usub now s.freefallStart ≥ DEBOUNCE_MS)
    (hspike : gyroSpike GYRO_FALL_DEG_S gyro) :
    (loop sqrtf accel gyro now s).inFreefall = true ∧
    (loop sqrtf accel gyro now s).freefallStart = s.freefallStart ∧
    (loop sqrtf accel gyro now s).fallFlag = 1 ∧
    (loop sqrtf accel gyro now s).flagRaisedAt = now := by
  unfold loop
  simp only [hlow, hin, hflag, ht, hspike, if_true, usub_self]
  split_ifs <;> simp_all [FLAG_MS, usub_self]

/-- While the flag is up and younger than `FLAG_MS`, a sub-threshold pass
changes nothing of the fall detector. -/
theorem imu_loop_hold (sqrtf : ℚ → ℚ) (accel gyro : Vec3) (now : Nat) (s : State)
    (hlow : accelMagG sqrtf accel < FREEFALL_G) (hin : s.inFreefall = true)
    (hflag : s.fallFlag = 1) (ht : usub now s.flagRaisedAt < FLAG_MS) :
    (loop sqrtf accel gyro now s).inFreefall = true ∧
    (loop sqrtf accel gyro now s).freefallStart = s.freefallStart ∧
    (loop sqrtf accel gyro now s).fallFlag = 1 ∧
    (loop sqrtf accel gyro now s).flagRaisedAt = s.flagRaisedAt := by
  have ht' : ¬ (usub now s.flagRaisedAt ≥ FLAG_MS) := by omega
  unfold loop
  simp only [hlow, hin, hflag, ht', if_true]
  split_ifs <;> simp_all

theorem imu_trace_append (sqrtf : ℚ → ℚ) (s : State) (l1 l2 : List Tick) :
    trace sqrtf s (l1 ++ l2) = trace sqrtf s l1 ++ trace sqrtf (run sqrtf s l1) l2 := by
  induction l1 generalizing s with
  | nil => rfl
  | cons k ks ih =>
    show _ :: trace sqrtf _ (ks ++ l2) = _
    rw [ih]; rfl

theorem imu_run_append (sqrtf : ℚ → ℚ) (s : State) (l1 l2 : List Tick) :
    run sqrtf s (l1 ++ l2) = run sqrtf (run sqrtf s l1) l2 := by
  induction l1 generalizing s with
  | nil => rfl
  | cons k ks ih => exact ih _

theorem imu_trace_length (sqrtf : ℚ → ℚ) (s : State) (l : List Tick) :
    (trace sqrtf s l).length = l.length := by
  induction l generalizing s with
  | nil => rfl
  | cons k ks ih => simp only [trace, List.length_cons, ih]

/-- While observing, passes below the threshold and before the debounce
time leave the flag clear and the observation start unchanged. -/
theorem imu_trace_observing (sqrtf : ℚ → ℚ) (ks : List Tick) (s : State)
    (hin : s.inFreefall = true) (hflag : s.fallFlag = 0)
    (hk : ∀ k ∈ ks, accelMagG sqrtf k.accel < FREEFALL_G ∧
      usub k.now s.freefallStart < DEBOUNCE_MS) :
    (∀ st ∈ trace sqrtf s ks, st.fallFlag = 0) ∧
    (run sqrtf s ks).inFreefall = true ∧ (run sqrtf s ks).fallFlag = 0 ∧
    (run sqrtf s ks).freefallStart = s.freefallStart := by
  induction ks generalizing s with
  | nil => exact ⟨fun st h => (by cases h), hin, hflag, rfl⟩
  | cons k ks ih =>
    have h1 := hk k (List.mem_cons_self _ _)
    obtain ⟨a, b, c⟩ := imu_loop_early sqrtf k.accel k.gyro k.now s h1.1 hin hflag h1.2
    have := ih (loop sqrtf k.accel k.gyro k.now s) a c
      (fun k' hk' => by rw [b]; exact hk k' (List.mem_cons_of_mem _ hk'))
    refine ⟨?_, this.2.1, this.2.2.1, by rw [← b]; exact this.2.2.2⟩
    intro st hst
    simp only [trace, List.mem_cons] at hst
    rcases hst with rfl | hst
    · exact c
    · exact this.1 st hst

/-- While the flag is up and younger than `FLAG_MS`, sub-threshold passes
keep it up and do not stamp it again. -/
theorem imu_trace_held (sqrtf : ℚ → ℚ) (ks : List Tick) (s : State)
    (hin : s.inFreefall = true) (hflag : s.fallFlag = 1)
    (hk : ∀ k ∈ ks, accelMagG sqrtf k.accel < FREEFALL_G ∧
      usub k.now s.flagRaisedAt < FLAG_MS) :
    ∀ st ∈ trace sqrtf s ks, st.fallFlag = 1 ∧ st.flagRaisedAt = s.flagRaisedAt := by
  induction ks generalizing s with
  | nil => exact fun st h => by cases h
  | cons k ks ih =>
    have h1 := hk k (List.mem_cons_self _ _)
    obtain ⟨a, -, c, d⟩ := imu_loop_hold sqrtf k.accel k.gyro k.now s h1.1 hin hflag h1.2
    have := ih (loop sqrtf k.accel k.gyro k.now s) a c
      (fun k' hk' => by rw [d]; exact hk k' (List.mem_cons_of_mem _ hk'))
    intro st hst
    simp only [trace, List.mem_cons] at hst
    rcases hst with rfl | hst
    · exact ⟨c, d⟩
    · rw [← d]; exact this st hst

/-- Bounce rejection for `finalimu.cpp`. -/
theorem imu_bounce (sqrtf : ℚ → ℚ) (s0 : State) (below : List Tick) (last : Tick)
    (hflag : s0.fallFlag = 0) (hin : s0.inFreefall = false)
    (hlow : ∀ k ∈ below, accelMagG sqrtf k.accel < FREEFALL_G)
    (hhigh : FREEFALL_G ≤ accelMagG sqrtf last.accel)
    (hinc : List.Pairwise (fun a b : Tick => a.now ≤ b.now) (below ++ [last]))
    (hword : ∀ k ∈ below ++ [last], k.now < WORD)
    (hspan : ∀ a ∈ below, ∀ b ∈ below, b.now - a.now < DEBOUNCE_MS) :
    ∀ st ∈ trace sqrtf s0 (below ++ [last]), st.fallFlag = 0 := by
  cases below with
  | nil =>
    intro st hst
    simp only [List.nil_append, trace, List.mem_singleton] at hst
    rw [hst]
    exact (imu_loop_above sqrtf last.accel last.gyro last.now s0 hhigh hflag).2
  | cons first rest =>
    obtain ⟨a, b, c⟩ := imu_loop_start sqrtf first.accel first.gyro first.now s0
      (hlow first (List.mem_cons_self _ _)) hin hflag
    rw [List.cons_append, List.pairwise_cons] at hinc
    have hobs := imu_trace_observing sqrtf rest (loop sqrtf first.accel first.gyro first.now s0) a c
      (fun k hk => by
        refine ⟨hlow k (List.mem_cons_of_mem _ hk), ?_⟩
        rw [b, usub_eq_sub _ _ (hinc.1 k (List.mem_append_left _ hk))
          (hword k (List.mem_cons_of_mem _ (List.mem_append_left _ hk)))]
        exact hspan first (List.mem_cons_self _ _) k (List.mem_cons_of_mem _ hk))
    intro st hst
    rw [List.cons_append] at hst
    simp only [trace, List.mem_cons] at hst
    rcases hst with rfl | hst
    · exact c
    · rw [imu_trace_append] at hst
      rcases List.mem_append.mp hst with h | h
      · exact hobs.1 st h
      · simp only [trace, List.mem_singleton] at h
        rw [h]
        exact (imu_loop_above sqrtf last.accel last.gyro last.now _ hhigh hobs.2.2.1).2

/-- Single confirmation for `finalimu.cpp`. -/
theorem imu_confirm_once (sqrtf : ℚ → ℚ) (s0 : State) (first : Tick) (early : List Tick)
    (kr : Tick) (held : List Tick)
    (hflag : s0.fallFlag = 0) (hin : s0.inFreefall = false)
    (hcond : ∀ k ∈ first :: (early ++ kr :: held),
      accelMagG sqrtf k.accel < FREEFALL_G ∧ gyroSpike GYRO_FALL_DEG_S k.gyro)
    (hinc : List.Pairwise (fun a b : Tick => a.now ≤ b.now) (first :: (early ++ kr :: held)))
    (hword : ∀ k ∈ first :: (early ++ kr :: held), k.now < WORD)
    (hearly : ∀ k ∈ early, k.now - first.now < DEBOUNCE_MS)
    (hkr : kr.now - first.now ≥ DEBOUNCE_MS)
    (hheld : ∀ k ∈ held, k.now - kr.now < FLAG_MS) :
    (trace sqrtf s0 (first :: (early ++ kr :: held))).map State.fallFlag =
      List.replicate (early.length + 1) 0 ++ List.replicate (held.length + 1) 1 ∧
    ∀ st ∈ trace sqrtf (run sqrtf s0 (first :: (early ++ [kr]))) held,
      st.flagRaisedAt = kr.now := by
  obtain ⟨a, b, c⟩ := imu_loop_start sqrtf first.accel first.gyro first.now s0
    (hcond first (List.mem_cons_self _ _)).1 hin hflag
  rw [List.pairwise_cons] at hinc
  obtain ⟨hfirst, hrest⟩ := hinc
  rw [List.pairwise_append] at hrest
  obtain ⟨-, hkrheld, -⟩ := hrest
  rw [List.pairwise_cons] at hkrheld
  set s1 := loop sqrtf first.accel first.gyro first.now s0 with hs1
  have hobs := imu_trace_observing sqrtf early s1 a c
    (fun k hk => by
      refine ⟨(hcond k (List.mem_cons_of_mem _ (List.mem_append_left _ hk))).1, ?_⟩
      rw [b, usub_eq_sub _ _ (hfirst k (List.mem_append_left _ hk))
        (hword k (List.mem_cons_of_mem _ (List.mem_append_left _ hk)))]
      exact hearly k hk)
  set s2 := run sqrtf s1 early with hs2
  have hkrmem : kr ∈ first :: (early ++ kr :: held) :=
    List.mem_cons_of_mem _ (List.mem_append_right _ (List.mem_cons_self _ _))
  obtain ⟨a3, -, c3, d3⟩ := imu_loop_raise sqrtf kr.accel kr.gyro kr.now s2
    (hcond kr hkrmem).1 hobs.2.1 hobs.2.2.1
    (by
      rw [hobs.2.2.2, b, usub_eq_sub _ _
        (hfirst kr (List.mem_append_right _ (List.mem_cons_self _ _))) (hword kr hkrmem)]
      exact hkr)
    (hcond kr hkrmem).2
  set s3 := loop sqrtf kr.accel kr.gyro kr.now s2 with hs3
  have hheldAll := imu_trace_held sqrtf held s3 a3 c3
    (fun k hk => by
      have hmem : k ∈ first :: (early ++ kr :: held) :=
        List.mem_cons_of_mem _ (List.mem_append_right _ (List.mem_cons_of_mem _ hk))
      refine ⟨(hcond k hmem).1, ?_⟩
      rw [d3, usub_eq_sub _ _ (hkrheld.1 k hk) (hword k hmem)]
      exact hheld k hk)
  have hrun : run sqrtf s0 (first :: (early ++ [kr])) = s3 := by
    show run sqrtf s1 (early ++ [kr]) = s3
    rw [imu_run_append]
    rfl
  constructor
  · show (s1 :: trace sqrtf s1 (early ++ kr :: held)).map State.fallFlag = _
    rw [imu_trace_append]
    show (s1 :: (trace sqrtf s1 early ++ s3 :: trace sqrtf s3 held)).map State.fallFlag = _
    have e1 : (trace sqrtf s1 early).map State.fallFlag = List.replicate early.length 0 := by
      rw [List.eq_replicate_iff]
      refine ⟨by rw [List.length_map, imu_trace_length], ?_⟩
      intro x hx
      obtain ⟨st, hst, rfl⟩ := List.mem_map.mp hx
      exact hobs.1 st hst
    have e2 : (trace sqrtf s3 held).map State.fallFlag = List.replicate held.length 1 := by
      rw [List.eq_replicate_iff]
      refine ⟨by rw [List.length_map, imu_trace_length], ?_⟩
      intro x hx
      obtain ⟨st, hst, rfl⟩ := List.mem_map.mp hx
      exact (hheldAll st hst).1
    simp only [List.map_cons, List.map_append, e1, e2, c, c3, List.replicate_succ,
      List.cons_append]
  · rw [hrun]
    intro st hst
    rw [(hheldAll st hst).2, d3]

end FinalImu

namespace WebServer

/-- A sub-threshold pass from the idle state starts the observation. -/
theorem web_read_start (sqrtf : ℚ → ℚ) (accel gyro : Vec3) (now : Nat) (s : State)
    (hlow : accelMagG sqrtf accel < FREEFALL_G) (hin : s.inFreefall = false)
    (hflag : s.fallFlag = 0) :
    (readSensorData sqrtf (some accel) (some gyro) now s).1.inFreefall = true ∧
    (readSensorData sqrtf (some accel) (some gyro) now s).1.freefallStart = now ∧
    (readSensorData sqrtf (some accel) (some gyro) now s).1.fallFlag = 0 := by
  unfold readSensorData
  simp only [hlow, hin, hflag, if_true]
  split_ifs <;> simp_all

/-- A sub-threshold pass before the debounce time keeps observing. -/
theorem web_read_early (sqrtf : ℚ → ℚ) (accel gyro : Vec3) (now : Nat) (s : State)
    (hlow : accelMagG sqrtf accel < FREEFALL_G) (hin : s.inFreefall = true)
    (hflag : s.fallFlag = 0) (ht : usub now s.freefallStart < DEBOUNCE_MS) :
    (readSensorData sqrtf (some accel) (some gyro) now s).1.inFreefall = true ∧
    (readSensorData sqrtf (some accel) (some gyro) now s).1.freefallStart = s.freefallStart ∧
    (readSensorData sqrtf (some accel) (some gyro) now s).1.fallFlag = 0 := by
  have ht' : ¬ (usub now s.freefallStart ≥ DEBOUNCE_MS) := by omega
  unfold readSensorData
  simp only [hlow, hin, hflag, ht', if_true]
  split_ifs <;> simp_all

/-- A pass at or above the threshold leaves a clear flag clear. -/
theorem web_read_above (sqrtf : ℚ → ℚ) (accel gyro : Vec3) (now : Nat) (s : State)
    (hhigh : FREEFALL_G ≤ accelMagG sqrtf accel) (hflag : s.fallFlag = 0) :
    (readSensorData sqrtf (some accel) (some gyro) now s).1.inFreefall = false ∧
    (readSensorData sqrtf (some accel) (some gyro) now s).1.fallFlag = 0 := by
  have h' : ¬ (accelMagG sqrtf accel < FREEFALL_G) := not_lt.mpr hhigh
  unfold readSensorData
  simp only [h', hflag, if_false]
  split_ifs <;> simp_all

/-- The confirming pass raises the flag and stamps it. -/
theorem web_read_raise (sqrtf : ℚ → ℚ) (accel gyro : Vec3) (now : Nat) (s : State)
    (hlow : accelMagG sqrtf accel < FREEFALL_G) (hin : s.inFreefall = true)
    (hflag : s.fallFlag = 0) (ht : usub now s.freefallStart ≥ DEBOUNCE_MS)
    (hspike : gyroSpike GYRO_FALL_DEG_S gyro) :
    (readSensorData sqrtf (some accel) (some gyro) now s).1.inFreefall = true ∧
    (readSensorData sqrtf (some accel) (some gyro) now s).1.freefallStart = s.freefallStart ∧
    (readSensorData sqrtf (some accel) (some gyro) now s).1.fallFlag = 1 ∧
    (readSensorData sqrtf (some accel) (some gyro) now s).1.flagRaisedAt = now := by
  unfold readSensorData
  simp only [hlow, hin, hflag, ht, hspike, if_true, usub_self]
  split_ifs <;> simp_all [FLAG_MS, usub_self]

/-- While the flag is up and younger than `FLAG_MS`, a sub-threshold pass
changes nothing of the fall detector. -/
theorem web_read_hold (sqrtf : ℚ → ℚ) (accel gyro : Vec3) (now : Nat) (s : State)
    (hlow : accelMagG sqrtf accel < FREEFALL_G) (hin : s.inFreefall = true)
    (hflag : s.fallFlag = 1) (ht : usub now s.flagRaisedAt < FLAG_MS) :
    (readSensorData sqrtf (some accel) (some gyro) now s).1.inFreefall = true ∧
    (readSensorData sqrtf (some accel) (some gyro) now s).1.freefallStart = s.freefallStart ∧
    (readSensorData sqrtf (some accel) (some gyro) now s).1.fallFlag = 1 ∧
    (readSensorData sqrtf (some accel) (some gyro) now s).1.flagRaisedAt = s.flagRaisedAt := by
  have ht' : ¬ (usub now s.flagRaisedAt ≥ FLAG_MS) := by omega
  unfold readSensorData
  simp only [hlow, hin, hflag, ht', if_true]
  split_ifs <;> simp_all

theorem web_trace_append (sqrtf : ℚ → ℚ) (s : State) (l1 l2 : List Tick) :
    trace sqrtf s (l1 ++ l2) = trace sqrtf s l1 ++ trace sqrtf (run sqrtf s l1) l2 := by
  induction l1 generalizing s with
  | nil => rfl
  | cons k ks ih =>
    show _ :: trace sqrtf _ (ks ++ l2) = _
    rw [ih]; rfl

theorem web_run_append (sqrtf : ℚ → ℚ) (s : State) (l1 l2 : List Tick) :
    run sqrtf s (l1 ++ l2) = run sqrtf (run sqrtf s l1) l2 := by
  induction l1 generalizing s with
  | nil => rfl
  | cons k ks ih => exact ih _

theorem web_trace_length (sqrtf : ℚ → ℚ) (s : State) (l : List Tick) :
    (trace sqrtf s l).length = l.length := by
  induction l generalizing s with
  | nil => rfl
  | cons k ks ih => simp only [trace, List.length_cons, ih]

/-- While observing, calls below the threshold and before the debounce
time leave the flag clear and the observation start unchanged. -/
theorem web_trace_observing (sqrtf : ℚ → ℚ) (ks : List Tick) (s : State)
    (hin : s.inFreefall = true) (hflag : s.fallFlag = 0)
    (hk : ∀ k ∈ ks, accelMagG sqrtf k.accel < FREEFALL_G ∧
      usub k.now s.freefallStart < DEBOUNCE_MS) :
    (∀ st ∈ trace sqrtf s ks, st.fallFlag = 0) ∧
    (run sqrtf s ks).inFreefall = true ∧ (run sqrtf s ks).fallFlag = 0 ∧
    (run sqrtf s ks).freefallStart = s.freefallStart := by
  induction ks generalizing s with
  | nil => exact ⟨fun st h => (by cases h), hin, hflag, rfl⟩
  | cons k ks ih =>
    have h1 := hk k (List.mem_cons_self _ _)
    obtain ⟨a, b, c⟩ := web_read_early sqrtf k.accel k.gyro k.now s h1.1 hin hflag h1.2
    have := ih (readSensorData sqrtf (some k.accel) (some k.gyro) k.now s).1 a c
      (fun k' hk' => by rw [b]; exact hk k' (List.mem_cons_of_mem _ hk'))
    refine ⟨?_, this.2.1, this.2.2.1, by rw [← b]; exact this.2.2.2⟩
    intro st hst
    simp only [trace, List.mem_cons] at hst
    rcases hst with rfl | hst
    · exact c
    · exact this.1 st hst

/-- While the flag is up and younger than `FLAG_MS`, sub-threshold calls
keep it up and do not stamp it again. -/
theorem web_trace_held (sqrtf : ℚ → ℚ) (ks : List Tick) (s : State)
    (hin : s.inFreefall = true) (hflag : s.fallFlag = 1)
    (hk : ∀ k ∈ ks, accelMagG sqrtf k.accel < FREEFALL_G ∧
      usub k.now s.flagRaisedAt < FLAG_MS) :
    ∀ st ∈ trace sqrtf s ks, st.fallFlag = 1 ∧ st.flagRaisedAt = s.flagRaisedAt := by
  induction ks generalizing s with
  | nil => exact fun st h => by cases h
  | cons k ks ih =>
    have h1 := hk k (List.mem_cons_self _ _)
    obtain ⟨a, -, c, d⟩ := web_read_hold sqrtf k.accel k.gyro k.now s h1.1 hin hflag h1.2
    have := ih (readSensorData sqrtf (some k.accel) (some k.gyro) k.now s).1 a c
      (fun k' hk' => by rw [d]; exact hk k' (List.mem_cons_of_mem _ hk'))
    intro st hst
    simp only [trace, List.mem_cons] at hst
    rcases hst with rfl | hst
    · exact ⟨c, d⟩
    · rw [← d]; exact this st hst

/-- Bounce rejection for `webserver-ip-detection.cpp`. -/
theorem web_bounce (sqrtf : ℚ → ℚ) (s0 : State) (below : List Tick) (last : Tick)
    (hflag : s0.fallFlag = 0) (hin : s0.inFreefall = false)
    (hlow : ∀ k ∈ below, accelMagG sqrtf k.accel < FREEFALL_G)
    (hhigh : FREEFALL_G ≤ accelMagG sqrtf last.accel)
    (hinc : List.Pairwise (fun a b : Tick => a.now ≤ b.now) (below ++ [last]))
    (hword : ∀ k ∈ below ++ [last], k.now < WORD)
    (hspan : ∀ a ∈ below, ∀ b ∈ below, b.now - a.now < DEBOUNCE_MS) :
    ∀ st ∈ trace sqrtf s0 (below ++ [last]), st.fallFlag = 0 := by
  cases below with
  | nil =>
    intro st hst
    simp only [List.nil_append, trace, List.mem_singleton] at hst
    rw [hst]
    exact (web_read_above sqrtf last.accel last.gyro last.now s0 hhigh hflag).2
  | cons first rest =>
    obtain ⟨a, b, c⟩ := web_read_start sqrtf first.accel first.gyro first.now s0
      (hlow first (List.mem_cons_self _ _)) hin hflag
    rw [List.cons_append, List.pairwise_cons] at hinc
    have hobs := web_trace_observing sqrtf rest (readSensorData sqrtf (some first.accel) (some first.gyro) first.now s0).1 a c
      (fun k hk => by
        refine ⟨hlow k (List.mem_cons_of_mem _ hk), ?_⟩
        rw [b, usub_eq_sub _ _ (hinc.1 k (List.mem_append_left _ hk))
          (hword k (List.mem_cons_of_mem _ (List.mem_append_left _ hk)))]
        exact hspan first (List.mem_cons_self _ _) k (List.mem_cons_of_mem _ hk))
    intro st hst
    rw [List.cons_append] at hst
    simp only [trace, List.mem_cons] at hst
    rcases hst with rfl | hst
    · exact c
    · rw [web_trace_append] at hst
      rcases List.mem_append.mp hst with h | h
      · exact hobs.1 st h
      · simp only [trace, List.mem_singleton] at h
        rw [h]
        exact (web_read_above sqrtf last.accel last.gyro last.now _ hhigh hobs.2.2.1).2

/-- Single confirmation for `webserver-ip-detection.cpp`. -/
theorem web_confirm_once (sqrtf : ℚ → ℚ) (s0 : State) (first : Tick) (early : List Tick)
    (kr : Tick) (held : List Tick)
    (hflag : s0.fallFlag = 0) (hin : s0.inFreefall = false)
    (hcond : ∀ k ∈ first :: (early ++ kr :: held),
      accelMagG sqrtf k.accel < FREEFALL_G ∧ gyroSpike GYRO_FALL_DEG_S k.gyro)
    (hinc : List.Pairwise (fun a b : Tick => a.now ≤ b.now) (first :: (early ++ kr :: held)))
    (hword : ∀ k ∈ first :: (early ++ kr :: held), k.now < WORD)
    (hearly : ∀ k ∈ early, k.now - first.now < DEBOUNCE_MS)
    (hkr : kr.now - first.now ≥ DEBOUNCE_MS)
    (hheld : ∀ k ∈ held, k.now - kr.now < FLAG_MS) :
    (trace sqrtf s0 (first :: (early ++ kr :: held))).map State.fallFlag =
      List.replicate (early.length + 1) 0 ++ List.replicate (held.length + 1) 1 ∧
    ∀ st ∈ trace sqrtf (run sqrtf s0 (first :: (early ++ [kr]))) held,
      st.flagRaisedAt = kr.now := by
  obtain ⟨a, b, c⟩ := web_read_start sqrtf first.accel first.gyro first.now s0
    (hcond first (List.mem_cons_self _ _)).1 hin hflag
  rw [List.pairwise_cons] at hinc
  obtain ⟨hfirst, hrest⟩ := hinc
  rw [List.pairwise_append] at hrest
  obtain ⟨-, hkrheld, -⟩ := hrest
  rw [List.pairwise_cons] at hkrheld
  set s1 := (readSensorData sqrtf (some first.accel) (some first.gyro) first.now s0).1 with hs1
  have hobs := web_trace_observing sqrtf early s1 a c
    (fun k hk => by
      refine ⟨(hcond k (List.mem_cons_of_mem _ (List.mem_append_left _ hk))).1, ?_⟩
      rw [b, usub_eq_sub _ _ (hfirst k (List.mem_append_left _ hk))
        (hword k (List.mem_cons_of_mem _ (List.mem_append_left _ hk)))]
      exact hearly k hk)
  set s2 := run sqrtf s1 early with hs2
  have hkrmem : kr ∈ first :: (early ++ kr :: held) :=
    List.mem_cons_of_mem _ (List.mem_append_right _ (List.mem_cons_self _ _))
  obtain ⟨a3, -, c3, d3⟩ := web_read_raise sqrtf kr.accel kr.gyro kr.now s2
    (hcond kr hkrmem).1 hobs.2.1 hobs.2.2.1
    (by
      rw [hobs.2.2.2, b, usub_eq_sub _ _
        (hfirst kr (List.mem_append_right _ (List.mem_cons_self _ _))) (hword kr hkrmem)]
      exact hkr)
    (hcond kr hkrmem).2
  set s3 := (readSensorData sqrtf (some kr.accel) (some kr.gyro) kr.now s2).1 with hs3
  have hheldAll := web_trace_held sqrtf held s3 a3 c3
    (fun k hk => by
      have hmem : k ∈ first :: (early ++ kr :: held) :=
        List.mem_cons_of_mem _ (List.mem_append_right _ (List.mem_cons_of_mem _ hk))
      refine ⟨(hcond k hmem).1, ?_⟩
      rw [d3, usub_eq_sub _ _ (hkrheld.1 k hk) (hword k hmem)]
      exact hheld k hk)
  have hrun : run sqrtf s0 (first :: (early ++ [kr])) = s3 := by
    show run sqrtf s1 (early ++ [kr]) = s3
    rw [web_run_append]
    rfl
  constructor
  · show (s1 :: trace sqrtf s1 (early ++ kr :: held)).map State.fallFlag = _
    rw [web_trace_append]
    show (s1 :: (trace sqrtf s1 early ++ s3 :: trace sqrtf s3 held)).map State.fallFlag = _
    have e1 : (trace sqrtf s1 early).map State.fallFlag = List.replicate early.length 0 := by
      rw [List.eq_replicate_iff]
      refine ⟨by rw [List.length_map, web_trace_length], ?_⟩
      intro x hx
      obtain ⟨st, hst, rfl⟩ := List.mem_map.mp hx
      exact hobs.1 st hst
    have e2 : (trace sqrtf s3 held).map State.fallFlag = List.replicate held.length 1 := by
      rw [List.eq_replicate_iff]
      refine ⟨by rw [List.length_map, web_trace_length], ?_⟩
      intro x hx
      obtain ⟨st, hst, rfl⟩ := List.mem_map.mp hx
      exact (hheldAll st hst).1
    simp only [List.map_cons, List.map_append, e1, e2, c, c3, List.replicate_succ,
      List.cons_append]
  · rw [hrun]
    intro st hst
    rw [(hheldAll st hst).2, d3]

end WebServer

namespace NewLogic

/-- A sub-threshold call from the idle state starts the observation. -/
theorem nl_read_start (sqrtf : ℚ → ℚ) (accel gyro : Vec3) (tFall tSeizure : Nat) (s : State)
    (hlow : accelMagG sqrtf accel < FREEFALL_G) (hin : s.inFreefall = false) :
    (readSensorData sqrtf (some accel) (some gyro) tFall tSeizure s).1.inFreefall = true ∧
    (readSensorData sqrtf (some accel) (some gyro) tFall tSeizure s).1.freefallStart = tFall ∧
    (readSensorData sqrtf (some accel) (some gyro) tFall tSeizure s).1.fallFlag = s.fallFlag := by
  unfold readSensorData
  simp only [hlow, hin, if_true]
  split_ifs <;> simp_all

/-- A sub-threshold call before the debounce time keeps observing. -/
theorem nl_read_early (sqrtf : ℚ → ℚ) (accel gyro : Vec3) (tFall tSeizure : Nat) (s : State)
    (hlow : accelMagG sqrtf accel < FREEFALL_G) (hin : s.inFreefall = true)
    (ht : usub tFall s.freefallStart < DEBOUNCE_MS) :
    (readSensorData sqrtf (some accel) (some gyro) tFall tSeizure s).1.inFreefall = true ∧
    (readSensorData sqrtf (some accel) (some gyro) tFall tSeizure s).1.freefallStart =
      s.freefallStart ∧
    (readSensorData sqrtf (some accel) (some gyro) tFall tSeizure s).1.fallFlag = s.fallFlag := by
  have ht' : ¬ (usub tFall s.freefallStart ≥ DEBOUNCE_MS) := by omega
  unfold readSensorData
  simp only [hlow, hin, ht', if_true]
  split_ifs <;> simp_all

/-- A call at or above the threshold leaves the flag as it is. -/
theorem nl_read_above (sqrtf : ℚ → ℚ) (accel gyro : Vec3) (tFall tSeizure : Nat) (s : State)
    (hhigh : FREEFALL_G ≤ accelMagG sqrtf accel) :
    (readSensorData sqrtf (some accel) (some gyro) tFall tSeizure s).1.inFreefall = false ∧
    (readSensorData sqrtf (some accel) (some gyro) tFall tSeizure s).1.fallFlag = s.fallFlag := by
  have h' : ¬ (accelMagG sqrtf accel < FREEFALL_G) := not_lt.mpr hhigh
  unfold readSensorData
  simp only [h', if_false]
  split_ifs <;> simp_all

/-- A sub-threshold call with a gyro spike after the debounce time sets the
flag, whatever it was. -/
theorem nl_read_raise (sqrtf : ℚ → ℚ) (accel gyro : Vec3) (tFall tSeizure : Nat) (s : State)
    (hlow : accelMagG sqrtf accel < FREEFALL_G) (hin : s.inFreefall = true)
    (ht : usub tFall s.freefallStart ≥ DEBOUNCE_MS)
    (hspike : gyroSpike GYRO_FALL_DEG_S gyro) :
    (readSensorData sqrtf (some accel) (some gyro) tFall tSeizure s).1.inFreefall = true ∧
    (readSensorData sqrtf (some accel) (some gyro) tFall tSeizure s).1.freefallStart =
      s.freefallStart ∧
    (readSensorData sqrtf (some accel) (some gyro) tFall tSeizure s).1.fallFlag = 1 := by
  unfold readSensorData
  simp only [hlow, hin, ht, hspike, if_true]
  split_ifs <;> simp_all

/-- A sub-threshold call never lowers a raised flag. -/
theorem nl_read_keep (sqrtf : ℚ → ℚ) (accel gyro : Vec3) (tFall tSeizure : Nat) (s : State)
    (hlow : accelMagG sqrtf accel < FREEFALL_G) (hin : s.inFreefall = true)
    (hflag : s.fallFlag = 1) :
    (readSensorData sqrtf (some accel) (some gyro) tFall tSeizure s).1.inFreefall = true ∧
    (readSensorData sqrtf (some accel) (some gyro) tFall tSeizure s).1.freefallStart =
      s.freefallStart ∧
    (readSensorData sqrtf (some accel) (some gyro) tFall tSeizure s).1.fallFlag = 1 := by
  unfold readSensorData
  simp only [hlow, hin, hflag, if_true]
  split_ifs <;> simp_all

theorem nl_trace_append (sqrtf : ℚ → ℚ) (s : State) (l1 l2 : List Tick) :
    trace sqrtf s (l1 ++ l2) = trace sqrtf s l1 ++ trace sqrtf (run sqrtf s l1) l2 := by
  induction l1 generalizing s with
  | nil => rfl
  | cons k ks ih =>
    show _ :: trace sqrtf _ (ks ++ l2) = _
    rw [ih]; rfl

theorem nl_run_append (sqrtf : ℚ → ℚ) (s : State) (l1 l2 : List Tick) :
    run sqrtf s (l1 ++ l2) = run sqrtf (run sqrtf s l1) l2 := by
  induction l1 generalizing s with
  | nil => rfl
  | cons k ks ih => exact ih _

theorem nl_trace_length (sqrtf : ℚ → ℚ) (s : State) (l : List Tick) :
    (trace sqrtf s l).length = l.length := by
  induction l generalizing s with
  | nil => rfl
  | cons k ks ih => simp only [trace, List.length_cons, ih]

/-- While observing, calls below the threshold and before the debounce
time leave the flag and the observation start unchanged. -/
theorem nl_trace_observing (sqrtf : ℚ → ℚ) (ks : List Tick) (s : State)
    (hin : s.inFreefall = true)
    (hk : ∀ k ∈ ks, accelMagG sqrtf k.accel < FREEFALL_G ∧
      usub k.tFall s.freefallStart < DEBOUNCE_MS) :
    (∀ st ∈ trace sqrtf s ks, st.fallFlag = s.fallFlag) ∧
    (run sqrtf s ks).inFreefall = true ∧ (run sqrtf s ks).fallFlag = s.fallFlag ∧
    (run sqrtf s ks).freefallStart = s.freefallStart := by
  induction ks generalizing s with
  | nil => exact ⟨fun st h => (by cases h), hin, rfl, rfl⟩
  | cons k ks ih =>
    have h1 := hk k (List.mem_cons_self _ _)
    obtain ⟨a, b, c⟩ := nl_read_early sqrtf k.accel k.gyro k.tFall k.tSeizure s h1.1 hin h1.2
    have := ih (readSensorData sqrtf (some k.accel) (some k.gyro) k.tFall k.tSeizure s).1 a
      (fun k' hk' => by rw [b]; exact hk k' (List.mem_cons_of_mem _ hk'))
    refine ⟨?_, this.2.1, by rw [← c]; exact this.2.2.1, by rw [← b]; exact this.2.2.2⟩
    intro st hst
    simp only [trace, List.mem_cons] at hst
    rcases hst with rfl | hst
    · exact c
    · rw [← c]; exact this.1 st hst

/-- Once the flag is up, sub-threshold calls keep it up. -/
theorem nl_trace_held (sqrtf : ℚ → ℚ) (ks : List Tick) (s : State)
    (hin : s.inFreefall = true) (hflag : s.fallFlag = 1)
    (hk : ∀ k ∈ ks, accelMagG sqrtf k.accel < FREEFALL_G) :
    ∀ st ∈ trace sqrtf s ks, st.fallFlag = 1 := by
  induction ks generalizing s with
  | nil => exact fun st h => by cases h
  | cons k ks ih =>
    have h1 := hk k (List.mem_cons_self _ _)
    obtain ⟨a, -, c⟩ := nl_read_keep sqrtf k.accel k.gyro k.tFall k.tSeizure s h1 hin hflag
    have := ih (readSensorData sqrtf (some k.accel) (some k.gyro) k.tFall k.tSeizure s).1 a c
      (fun k' hk' => hk k' (List.mem_cons_of_mem _ hk'))
    intro st hst
    simp only [trace, List.mem_cons] at hst
    rcases hst with rfl | hst
    · exact c
    · exact this st hst

/-- Bounce rejection for `newfallseizurelogic.cpp`. -/
theorem nl_bounce (sqrtf : ℚ → ℚ) (s0 : State) (below : List Tick) (last : Tick)
    (hflag : s0.fallFlag = 0) (hin : s0.inFreefall = false)
    (hlow : ∀ k ∈ below, accelMagG sqrtf k.accel < FREEFALL_G)
    (hhigh : FREEFALL_G ≤ accelMagG sqrtf last.accel)
    (hinc : List.Pairwise (fun a b : Tick => a.tFall ≤ b.tFall) (below ++ [last]))
    (hword : ∀ k ∈ below ++ [last], k.tFall < WORD)
    (hspan : ∀ a ∈ below, ∀ b ∈ below, b.tFall - a.tFall < DEBOUNCE_MS) :
    ∀ st ∈ trace sqrtf s0 (below ++ [last]), st.fallFlag = 0 := by
  cases below with
  | nil =>
    intro st hst
    simp only [List.nil_append, trace, List.mem_singleton] at hst
    rw [hst, (nl_read_above sqrtf last.accel last.gyro last.tFall last.tSeizure s0 hhigh).2]
    exact hflag
  | cons first rest =>
    obtain ⟨a, b, c⟩ := nl_read_start sqrtf first.accel first.gyro first.tFall first.tSeizure s0
      (hlow first (List.mem_cons_self _ _)) hin
    rw [hflag] at c
    rw [List.cons_append, List.pairwise_cons] at hinc
    have hobs := nl_trace_observing sqrtf rest
      (readSensorData sqrtf (some first.accel) (some first.gyro) first.tFall first.tSeizure s0).1 a
      (fun k hk => by
        refine ⟨hlow k (List.mem_cons_of_mem _ hk), ?_⟩
        rw [b, usub_eq_sub _ _ (hinc.1 k (List.mem_append_left _ hk))
          (hword k (List.mem_cons_of_mem _ (List.mem_append_left _ hk)))]
        exact hspan first (List.mem_cons_self _ _) k (List.mem_cons_of_mem _ hk))
    rw [c] at hobs
    intro st hst
    rw [List.cons_append] at hst
    simp only [trace, List.mem_cons] at hst
    rcases hst with rfl | hst
    · exact c
    · rw [nl_trace_append] at hst
      rcases List.mem_append.mp hst with h | h
      · exact hobs.1 st h
      · simp only [trace, List.mem_singleton] at h
        rw [h, (nl_read_above sqrtf last.accel last.gyro last.tFall last.tSeizure _ hhigh).2]
        exact hobs.2.2.1

/-- Single confirmation for `newfallseizurelogic.cpp`. -/
theorem nl_confirm_once (sqrtf : ℚ → ℚ) (s0 : State) (first : Tick) (early : List Tick)
    (kr : Tick) (held : List Tick)
    (hflag : s0.fallFlag = 0) (hin : s0.inFreefall = false)
    (hcond : ∀ k ∈ first :: (early ++ kr :: held),
      accelMagG sqrtf k.accel < FREEFALL_G ∧ gyroSpike GYRO_FALL_DEG_S k.gyro)
    (hinc : List.Pairwise (fun a b : Tick => a.tFall ≤ b.tFall)
      (first :: (early ++ kr :: held)))
    (hword : ∀ k ∈ first :: (early ++ kr :: held), k.tFall < WORD)
    (hearly : ∀ k ∈ early, k.tFall - first.tFall < DEBOUNCE_MS)
    (hkr : kr.tFall - first.tFall ≥ DEBOUNCE_MS) :
    (trace sqrtf s0 (first :: (early ++ kr :: held))).map State.fallFlag =
      List.replicate (early.length + 1) 0 ++ List.replicate (held.length + 1) 1 := by
  obtain ⟨a, b, c⟩ := nl_read_start sqrtf first.accel first.gyro first.tFall first.tSeizure s0
    (hcond first (List.mem_cons_self _ _)).1 hin
  rw [hflag] at c
  rw [List.pairwise_cons] at hinc
  obtain ⟨hfirst, -⟩ := hinc
  set s1 := (readSensorData sqrtf (some first.accel) (some first.gyro) first.tFall
    first.tSeizure s0).1 with hs1
  have hobs := nl_trace_observing sqrtf early s1 a
    (fun k hk => by
      refine ⟨(hcond k (List.mem_cons_of_mem _ (List.mem_append_left _ hk))).1, ?_⟩
      rw [b, usub_eq_sub _ _ (hfirst k (List.mem_append_left _ hk))
        (hword k (List.mem_cons_of_mem _ (List.mem_append_left _ hk)))]
      exact hearly k hk)
  rw [c] at hobs
  set s2 := run sqrtf s1 early with hs2
  have hkrmem : kr ∈ first :: (early ++ kr :: held) :=
    List.mem_cons_of_mem _ (List.mem_append_right _ (List.mem_cons_self _ _))
  obtain ⟨a3, -, c3⟩ := nl_read_raise sqrtf kr.accel kr.gyro kr.tFall kr.tSeizure s2
    (hcond kr hkrmem).1 hobs.2.1
    (by
      rw [hobs.2.2.2, b, usub_eq_sub _ _
        (hfirst kr (List.mem_append_right _ (List.mem_cons_self _ _))) (hword kr hkrmem)]
      exact hkr)
    (hcond kr hkrmem).2
  set s3 := (readSensorData sqrtf (some kr.accel) (some kr.gyro) kr.tFall kr.tSeizure s2).1
    with hs3
  have hheldAll := nl_trace_held sqrtf held s3 a3 c3
    (fun k hk => (hcond k
      (List.mem_cons_of_mem _ (List.mem_append_right _ (List.mem_cons_of_mem _ hk)))).1)
  show (s1 :: trace sqrtf s1 (early ++ kr :: held)).map State.fallFlag = _
  rw [nl_trace_append]
  show (s1 :: (trace sqrtf s1 early ++ s3 :: trace sqrtf s3 held)).map State.fallFlag = _
  have e1 : (trace sqrtf s1 early).map State.fallFlag = List.replicate early.length 0 := by
    rw [List.eq_replicate_iff]
    refine ⟨by rw [List.length_map, nl_trace_length], ?_⟩
    intro x hx
    obtain ⟨st, hst, rfl⟩ := List.mem_map.mp hx
    exact hobs.1 st hst
  have e2 : (trace sqrtf s3 held).map State.fallFlag = List.replicate held.length 1 := by
    rw [List.eq_replicate_iff]
    refine ⟨by rw [List.length_map, nl_trace_length], ?_⟩
    intro x hx
    obtain ⟨st, hst, rfl⟩ := List.mem_map.mp hx
    exact hheldAll st hst
  simp only [List.map_cons, List.map_append, e1, e2, c, c3, List.replicate_succ,
    List.cons_append]

end NewLogic

/-- C8. Bounce rejection, for `fall_detection_threshold.cpp`, `finalimu.cpp`
and `newfallseizurelogic.cpp`: from a state with `fallFlag = 0` and
`inFreefall = false`, after passes at non-decreasing 32-bit times whose
acceleration magnitudes are below the free-fall threshold and span less
than `DEBOUNCE_MS`, followed by one pass at or above the threshold,
`fallFlag` is 0 after every pass, whatever the gyro readings are. -/
theorem C8_bounce_rejection (sqrtf : ℚ → ℚ) :
    (∀ (s0 : FallThreshold.State) (below : List FallThreshold.Tick)
        (last : FallThreshold.Tick),
      s0.fallFlag = 0 → s0.inFreefall = false →
      (∀ k ∈ below, accelMagG sqrtf k.accel < FallThreshold.FREEFALL_THRESH_G) →
      FallThreshold.FREEFALL_THRESH_G ≤ accelMagG sqrtf last.accel →
      List.Pairwise (fun a b : FallThreshold.Tick => a.now ≤ b.now) (below ++ [last]) →
      (∀ k ∈ below ++ [last], k.now < WORD) →
      (∀ a ∈ below, ∀ b ∈ below, b.now - a.now < FallThreshold.DEBOUNCE_MS) →
      ∀ st ∈ FallThreshold.trace sqrtf s0 (below ++ [last]), st.fallFlag = 0) ∧
    (∀ (s0 : FinalImu.State) (below : List FinalImu.Tick) (last : FinalImu.Tick),
      s0.fallFlag = 0 → s0.inFreefall = false →
      (∀ k ∈ below, accelMagG sqrtf k.accel < FinalImu.FREEFALL_G) →
      FinalImu.FREEFALL_G ≤ accelMagG sqrtf last.accel →
      List.Pairwise (fun a b : FinalImu.Tick => a.now ≤ b.now) (below ++ [last]) →
      (∀ k ∈ below ++ [last], k.now < WORD) →
      (∀ a ∈ below, ∀ b ∈ below, b.now - a.now < FinalImu.DEBOUNCE_MS) →
      ∀ st ∈ FinalImu.trace sqrtf s0 (below ++ [last]), st.fallFlag = 0) ∧
    (∀ (s0 : NewLogic.State) (below : List NewLogic.Tick) (last : NewLogic.Tick),
      s0.fallFlag = 0 → s0.inFreefall = false →
      (∀ k ∈ below, accelMagG sqrtf k.accel < NewLogic.FREEFALL_G) →
      NewLogic.FREEFALL_G ≤ accelMagG sqrtf last.accel →
      List.Pairwise (fun a b : NewLogic.Tick => a.tFall ≤ b.tFall) (below ++ [last]) →
      (∀ k ∈ below ++ [last], k.tFall < WORD) →
      (∀ a ∈ below, ∀ b ∈ below, b.tFall - a.tFall < NewLogic.DEBOUNCE_MS) →
      ∀ st ∈ NewLogic.trace sqrtf s0 (below ++ [last]), st.fallFlag = 0) :=
  ⟨FallThreshold.thr_bounce sqrtf, FinalImu.imu_bounce sqrtf, NewLogic.nl_bounce sqrtf⟩

/-- C8 on a 99 ms free fall followed by a pass at rest. -/
theorem C8_bounce_rejection_witness :
    (∀ st ∈ FallThreshold.trace qsqrt {}
        ([⟨⟨0, 0, 0⟩, 1000⟩, ⟨⟨0, 0, 0⟩, 1050⟩, ⟨⟨0, 0, 0⟩, 1099⟩] ++
          [⟨⟨0, 0, 9.80665⟩, 1110⟩]), st.fallFlag = 0) ∧
    (∀ st ∈ FinalImu.trace qsqrt {}
        ([⟨⟨0, 0, 0⟩, ⟨2, 0, 0⟩, 1000⟩, ⟨⟨0, 0, 0⟩, ⟨2, 0, 0⟩, 1050⟩,
          ⟨⟨0, 0, 0⟩, ⟨2, 0, 0⟩, 1099⟩] ++ [⟨⟨0, 0, 9.80665⟩, ⟨2, 0, 0⟩, 1110⟩]),
      st.fallFlag = 0) ∧
    (∀ st ∈ NewLogic.trace qsqrt {}
        ([⟨⟨0, 0, 0⟩, ⟨2, 0, 0⟩, 1000, 1000⟩, ⟨⟨0, 0, 0⟩, ⟨2, 0, 0⟩, 1050, 1050⟩,
          ⟨⟨0, 0, 0⟩, ⟨2, 0, 0⟩, 1099, 1099⟩] ++ [⟨⟨0, 0, 9.80665⟩, ⟨2, 0, 0⟩, 1110, 1110⟩]),
      st.fallFlag = 0) :=
  ⟨(C8_bounce_rejection qsqrt).1 {} _ _ rfl rfl (by decide!) (by decide!) (by decide!)
      (by decide!) (by decide!),
    (C8_bounce_rejection qsqrt).2.1 {} _ _ rfl rfl (by decide!) (by decide!) (by decide!)
      (by decide!) (by decide!),
    (C8_bounce_rejection qsqrt).2.2 {} _ _ rfl rfl (by decide!) (by decide!) (by decide!)
      (by decide!) (by decide!)⟩

/-- C9 as stated fails on `finalimu.cpp` and `webserver-ip-detection.cpp`.
A free fall with gyro spike held from 1000 ms to 11120 ms, from the cold
state and with no reset of any kind from outside, gives the flag values
0, 0, 1, 1, 1, 0, 1, 1, 0, 1: the flag is raised at 1100 ms, lowered by the
`FLAG_MS` auto-clear at 6100 ms, raised again at 6110 ms, lowered at
11110 ms and raised a third time at 11120 ms. So the statement that the flag
is 0 up to the confirming pass and 1 on every later pass, however long the
condition holds, is false for these two variants. -/
theorem C9_raised_again_counterexample :
    (FinalImu.trace qsqrt {}
        [⟨⟨0, 0, 0⟩, ⟨2, 0, 0⟩, 1000⟩, ⟨⟨0, 0, 0⟩, ⟨2, 0, 0⟩, 1050⟩,
          ⟨⟨0, 0, 0⟩, ⟨2, 0, 0⟩, 1100⟩, ⟨⟨0, 0, 0⟩, ⟨2, 0, 0⟩, 1150⟩,
          ⟨⟨0, 0, 0⟩, ⟨2, 0, 0⟩, 6099⟩, ⟨⟨0, 0, 0⟩, ⟨2, 0, 0⟩, 6100⟩,
          ⟨⟨0, 0, 0⟩, ⟨2, 0, 0⟩, 6110⟩, ⟨⟨0, 0, 0⟩, ⟨2, 0, 0⟩, 11109⟩,
          ⟨⟨0, 0, 0⟩, ⟨2, 0, 0⟩, 11110⟩, ⟨⟨0, 0, 0⟩, ⟨2, 0, 0⟩, 11120⟩]).map
        FinalImu.State.fallFlag = [0, 0, 1, 1, 1, 0, 1, 1, 0, 1] ∧
    (WebServer.trace qsqrt {}
        [⟨⟨0, 0, 0⟩, ⟨2, 0, 0⟩, 1000⟩, ⟨⟨0, 0, 0⟩, ⟨2, 0, 0⟩, 1050⟩,
          ⟨⟨0, 0, 0⟩, ⟨2, 0, 0⟩, 1100⟩, ⟨⟨0, 0, 0⟩, ⟨2, 0, 0⟩, 1150⟩,
          ⟨⟨0, 0, 0⟩, ⟨2, 0, 0⟩, 6099⟩, ⟨⟨0, 0, 0⟩, ⟨2, 0, 0⟩, 6100⟩,
          ⟨⟨0, 0, 0⟩, ⟨2, 0, 0⟩, 6110⟩, ⟨⟨0, 0, 0⟩, ⟨2, 0, 0⟩, 11109⟩,
          ⟨⟨0, 0, 0⟩, ⟨2, 0, 0⟩, 11110⟩, ⟨⟨0, 0, 0⟩, ⟨2, 0, 0⟩, 11120⟩]).map
        WebServer.State.fallFlag = [0, 0, 1, 1, 1, 0, 1, 1, 0, 1] ∧
    ¬ (∀ (sqrtf : ℚ → ℚ) (s0 : FinalImu.State) (first : FinalImu.Tick)
        (early : List FinalImu.Tick) (kr : FinalImu.Tick) (held : List FinalImu.Tick),
      s0.fallFlag = 0 → s0.inFreefall = false →
      (∀ k ∈ first :: (early ++ kr :: held),
        accelMagG sqrtf k.accel < FinalImu.FREEFALL_G ∧
          gyroSpike FinalImu.GYRO_FALL_DEG_S k.gyro) →
      List.Pairwise (fun a b : FinalImu.Tick => a.now ≤ b.now)
        (first :: (early ++ kr :: held)) →
      (∀ k ∈ first :: (early ++ kr :: held), k.now < WORD) →
      (∀ k ∈ early, k.now - first.now < FinalImu.DEBOUNCE_MS) →
      kr.now - first.now ≥ FinalImu.DEBOUNCE_MS →
      (FinalImu.trace sqrtf s0 (first :: (early ++ kr :: held))).map FinalImu.State.fallFlag =
        List.replicate (early.length + 1) 0 ++ List.replicate (held.length + 1) 1) ∧
    ¬ (∀ (sqrtf : ℚ → ℚ) (s0 : WebServer.State) (first : WebServer.Tick)
        (early : List WebServer.Tick) (kr : WebServer.Tick) (held : List WebServer.Tick),
      s0.fallFlag = 0 → s0.inFreefall = false →
      (∀ k ∈ first :: (early ++ kr :: held),
        accelMagG sqrtf k.accel < WebServer.FREEFALL_G ∧
          gyroSpike WebServer.GYRO_FALL_DEG_S k.gyro) →
      List.Pairwise (fun a b : WebServer.Tick => a.now ≤ b.now)
        (first :: (early ++ kr :: held)) →
      (∀ k ∈ first :: (early ++ kr :: held), k.now < WORD) →
      (∀ k ∈ early, k.now - first.now < WebServer.DEBOUNCE_MS) →
      kr.now - first.now ≥ WebServer.DEBOUNCE_MS →
      (WebServer.trace sqrtf s0 (first :: (early ++ kr :: held))).map
          WebServer.State.fallFlag =
        List.replicate (early.length + 1) 0 ++ List.replicate (held.length + 1) 1) := by
  refine ⟨by decide!, by decide!, ?_, ?_⟩
  · intro h
    have h1 := h qsqrt {} ⟨⟨0, 0, 0⟩, ⟨2, 0, 0⟩, 1000⟩ [⟨⟨0, 0, 0⟩, ⟨2, 0, 0⟩, 1050⟩]
      ⟨⟨0, 0, 0⟩, ⟨2, 0, 0⟩, 1100⟩
      [⟨⟨0, 0, 0⟩, ⟨2, 0, 0⟩, 1150⟩, ⟨⟨0, 0, 0⟩, ⟨2, 0, 0⟩, 6099⟩,
        ⟨⟨0, 0, 0⟩, ⟨2, 0, 0⟩, 6100⟩, ⟨⟨0, 0, 0⟩, ⟨2, 0, 0⟩, 6110⟩]
      rfl rfl (by decide!) (by decide!) (by decide!) (by decide!) (by decide!)
    revert h1
    decide!
  · intro h
    have h1 := h qsqrt {} ⟨⟨0, 0, 0⟩, ⟨2, 0, 0⟩, 1000⟩ [⟨⟨0, 0, 0⟩, ⟨2, 0, 0⟩, 1050⟩]
      ⟨⟨0, 0, 0⟩, ⟨2, 0, 0⟩, 1100⟩
      [⟨⟨0, 0, 0⟩, ⟨2, 0, 0⟩, 1150⟩, ⟨⟨0, 0, 0⟩, ⟨2, 0, 0⟩, 6099⟩,
        ⟨⟨0, 0, 0⟩, ⟨2, 0, 0⟩, 6100⟩, ⟨⟨0, 0, 0⟩, ⟨2, 0, 0⟩, 6110⟩]
      rfl rfl (by decide!) (by decide!) (by decide!) (by decide!) (by decide!)
    revert h1
    decide!

/-- C9, amended. Single confirmation, for `finalimu.cpp`,
`webserver-ip-detection.cpp` and `newfallseizurelogic.cpp`: from a state
with `fallFlag = 0` and `inFreefall = false`, let every pass, at
non-decreasing 32-bit times, have its acceleration magnitude below the
free-fall threshold and a gyro axis above `GYRO_FALL_DEG_S`. Then `fallFlag`
is 0 on the passes less than `DEBOUNCE_MS` after the first one, becomes 1 on
the first pass `kr` at least `DEBOUNCE_MS` after it, and is not raised again
while it is up: in `newfallseizurelogic.cpp`, whose flag only `/resetFall`
clears, it stays 1 on all later passes, however long the condition holds; in
the two variants with the `FLAG_MS` auto-clear it stays 1, with
`flagRaisedAt` still the time of `kr`, on the later passes less than
`FLAG_MS` after `kr`. -/
theorem C9_fall_confirmed_once (sqrtf : ℚ → ℚ) :
    (∀ (s0 : FinalImu.State) (first : FinalImu.Tick) (early : List FinalImu.Tick)
        (kr : FinalImu.Tick) (held : List FinalImu.Tick),
      s0.fallFlag = 0 → s0.inFreefall = false →
      (∀ k ∈ first :: (early ++ kr :: held),
        accelMagG sqrtf k.accel < FinalImu.FREEFALL_G ∧
          gyroSpike FinalImu.GYRO_FALL_DEG_S k.gyro) →
      List.Pairwise (fun a b : FinalImu.Tick => a.now ≤ b.now)
        (first :: (early ++ kr :: held)) →
      (∀ k ∈ first :: (early ++ kr :: held), k.now < WORD) →
      (∀ k ∈ early, k.now - first.now < FinalImu.DEBOUNCE_MS) →
      kr.now - first.now ≥ FinalImu.DEBOUNCE_MS →
      (∀ k ∈ held, k.now - kr.now < FinalImu.FLAG_MS) →
      (FinalImu.trace sqrtf s0 (first :: (early ++ kr :: held))).map FinalImu.State.fallFlag =
        List.replicate (early.length + 1) 0 ++ List.replicate (held.length + 1) 1 ∧
      ∀ st ∈ FinalImu.trace sqrtf (FinalImu.run sqrtf s0 (first :: (early ++ [kr]))) held,
        st.flagRaisedAt = kr.now) ∧
    (∀ (s0 : WebServer.State) (first : WebServer.Tick) (early : List WebServer.Tick)
        (kr : WebServer.Tick) (held : List WebServer.Tick),
      s0.fallFlag = 0 → s0.inFreefall = false →
      (∀ k ∈ first :: (early ++ kr :: held),
        accelMagG sqrtf k.accel < WebServer.FREEFALL_G ∧
          gyroSpike WebServer.GYRO_FALL_DEG_S k.gyro) →
      List.Pairwise (fun a b : WebServer.Tick => a.now ≤ b.now)
        (first :: (early ++ kr :: held)) →
      (∀ k ∈ first :: (early ++ kr :: held), k.now < WORD) →
      (∀ k ∈ early, k.now - first.now < WebServer.DEBOUNCE_MS) →
      kr.now - first.now ≥ WebServer.DEBOUNCE_MS →
      (∀ k ∈ held, k.now - kr.now < WebServer.FLAG_MS) →
      (WebServer.trace sqrtf s0 (first :: (early ++ kr :: held))).map
          WebServer.State.fallFlag =
        List.replicate (early.length + 1) 0 ++ List.replicate (held.length + 1) 1 ∧
      ∀ st ∈ WebServer.trace sqrtf (WebServer.run sqrtf s0 (first :: (early ++ [kr]))) held,
        st.flagRaisedAt = kr.now) ∧
    (∀ (s0 : NewLogic.State) (first : NewLogic.Tick) (early : List NewLogic.Tick)
        (kr : NewLogic.Tick) (held : List NewLogic.Tick),
      s0.fallFlag = 0 → s0.inFreefall = false →
      (∀ k ∈ first :: (early ++ kr :: held),
        accelMagG sqrtf k.accel < NewLogic.FREEFALL_G ∧
          gyroSpike NewLogic.GYRO_FALL_DEG_S k.gyro) →
      List.Pairwise (fun a b : NewLogic.Tick => a.tFall ≤ b.tFall)
        (first :: (early ++ kr :: held)) →
      (∀ k ∈ first :: (early ++ kr :: held), k.tFall < WORD) →
      (∀ k ∈ early, k.tFall - first.tFall < NewLogic.DEBOUNCE_MS) →
      kr.tFall - first.tFall ≥ NewLogic.DEBOUNCE_MS →
      (NewLogic.trace sqrtf s0 (first :: (early ++ kr :: held))).map
          NewLogic.State.fallFlag =
        List.replicate (early.length + 1) 0 ++ List.replicate (held.length + 1) 1) :=
  ⟨FinalImu.imu_confirm_once sqrtf, WebServer.web_confirm_once sqrtf, NewLogic.nl_confirm_once sqrtf⟩

/-- C9 on a free fall with gyro spike that starts at 1000 ms. -/
theorem C9_fall_confirmed_once_witness :
    (FinalImu.trace qsqrt {}
        (⟨⟨0, 0, 0⟩, ⟨2, 0, 0⟩, 1000⟩ ::
          ([⟨⟨0, 0, 0⟩, ⟨2, 0, 0⟩, 1050⟩] ++ ⟨⟨0, 0, 0⟩, ⟨2, 0, 0⟩, 1100⟩ ::
            [⟨⟨0, 0, 0⟩, ⟨2, 0, 0⟩, 1150⟩, ⟨⟨0, 0, 0⟩, ⟨2, 0, 0⟩, 6099⟩]))).map
        FinalImu.State.fallFlag = [0, 0, 1, 1, 1] ∧
    (WebServer.trace qsqrt {}
        (⟨⟨0, 0, 0⟩, ⟨2, 0, 0⟩, 1000⟩ ::
          ([⟨⟨0, 0, 0⟩, ⟨2, 0, 0⟩, 1050⟩] ++ ⟨⟨0, 0, 0⟩, ⟨2, 0, 0⟩, 1100⟩ ::
            [⟨⟨0, 0, 0⟩, ⟨2, 0, 0⟩, 1150⟩, ⟨⟨0, 0, 0⟩, ⟨2, 0, 0⟩, 6099⟩]))).map
        WebServer.State.fallFlag = [0, 0, 1, 1, 1] ∧
    (NewLogic.trace qsqrt {}
        (⟨⟨0, 0, 0⟩, ⟨2, 0, 0⟩, 1000, 1000⟩ ::
          ([⟨⟨0, 0, 0⟩, ⟨2, 0, 0⟩, 1050, 1050⟩] ++ ⟨⟨0, 0, 0⟩, ⟨2, 0, 0⟩, 1100, 1100⟩ ::
            [⟨⟨0, 0, 0⟩, ⟨2, 0, 0⟩, 1150, 1150⟩, ⟨⟨0, 0, 0⟩, ⟨2, 0, 0⟩, 90000, 90000⟩]))).map
        NewLogic.State.fallFlag = [0, 0, 1, 1, 1] :=
  ⟨((C9_fall_confirmed_once qsqrt).1 {} _ _ _ _ rfl rfl (by decide!) (by decide!)
      (by decide!) (by decide!) (by decide!) (by decide!)).1,
    ((C9_fall_confirmed_once qsqrt).2.1 {} _ _ _ _ rfl rfl (by decide!) (by decide!)
      (by decide!) (by decide!) (by decide!) (by decide!)).1,
    (C9_fall_confirmed_once qsqrt).2.2 {} _ _ _ _ rfl rfl (by decide!) (by decide!)
      (by decide!) (by decide!) (by decide!)⟩

/-- C10, evaluated on `newfallseizurelogic.cpp`. `/resetFall` clears
`fallFlag` and nothing else, so the observation (`inFreefall`,
`freefallStart`) survives it: whenever a free fall with gyro spike has been
observed for `DEBOUNCE_MS`, the call of `readSensorData` right after the
reset sets `fallFlag` to 1 again. `/resetSeizure` does clear the flag, its
timestamp and the condition marker. The concrete run: free fall with spike
from a cold start at 1000 ms raises the flag at 1100 ms; a reset followed by
the pass at 1200 ms shows `fallFlag = 1`. -/
theorem C10_reset_then_reconfirmed :
    (∀ s : NewLogic.State,
      (NewLogic.resetFall s).fallFlag = 0 ∧
      (NewLogic.resetFall s).inFreefall = s.inFreefall ∧
      (NewLogic.resetFall s).freefallStart = s.freefallStart) ∧
    (∀ s : NewLogic.State,
      (NewLogic.resetSeizure s).seizureFlag = 0 ∧
      (NewLogic.resetSeizure s).seizureStart = 0 ∧
      (NewLogic.resetSeizure s).wasSeizureDetected = false) ∧
    (∀ (sqrtf : ℚ → ℚ) (s : NewLogic.State) (accel gyro : Vec3) (tFall tSeizure : Nat),
      accelMagG sqrtf accel < NewLogic.FREEFALL_G →
      gyroSpike NewLogic.GYRO_FALL_DEG_S gyro →
      s.inFreefall = true →
      usub tFall s.freefallStart ≥ NewLogic.DEBOUNCE_MS →
      (NewLogic.readSensorData sqrtf (some accel) (some gyro) tFall tSeizure
        (NewLogic.resetFall s)).1.fallFlag = 1) ∧
    (NewLogic.run qsqrt {}
        [⟨⟨0, 0, 0⟩, ⟨2, 0, 0⟩, 1000, 1000⟩, ⟨⟨0, 0, 0⟩, ⟨2, 0, 0⟩, 1100, 1100⟩]).fallFlag = 1 ∧
    (NewLogic.resetFall (NewLogic.run qsqrt {}
        [⟨⟨0, 0, 0⟩, ⟨2, 0, 0⟩, 1000, 1000⟩, ⟨⟨0, 0, 0⟩, ⟨2, 0, 0⟩, 1100, 1100⟩])).fallFlag = 0 ∧
    (NewLogic.readSensorData qsqrt (some ⟨0, 0, 0⟩) (some ⟨2, 0, 0⟩) 1200 1200
      (NewLogic.resetFall (NewLogic.run qsqrt {}
        [⟨⟨0, 0, 0⟩, ⟨2, 0, 0⟩, 1000, 1000⟩, ⟨⟨0, 0, 0⟩, ⟨2, 0, 0⟩, 1100, 1100⟩]))).1.fallFlag
      = 1 := by
  refine ⟨fun s => ⟨rfl, rfl, rfl⟩, fun s => ⟨rfl, rfl, rfl⟩, ?_, by decide!, by decide!,
    by decide!⟩
  intro sqrtf s accel gyro tFall tSeizure hlow hspike hin ht
  exact (NewLogic.nl_read_raise sqrtf accel gyro tFall tSeizure (NewLogic.resetFall s) hlow hin
    ht hspike).2.2

/-- The sum of squares over the first `n` cells of a buffer whose cells all
hold `v`. -/
theorem sumSq_replicate (v : ℚ) (m n : Nat) (h : n ≤ m) :
    sumSq (List.replicate m v) n = n * (v * v) := by
  unfold sumSq
  induction n with
  | zero => simp
  | succ k ih =>
    rw [List.range_succ, List.foldl_append, ih (by omega)]
    have hk : (List.replicate m v).getD k 0 = v := by
      rw [List.getD_eq_getElem?_getD, List.getElem?_replicate]
      simp [show k < m by omega]
    simp only [List.foldl_cons, List.foldl_nil, hk]
    push_cast
    ring

namespace FinalImu

/-- The RMS part of one pass: cursor, buffer and seizure flag afterwards. -/
theorem imu_seizure_after (sqrtf : ℚ → ℚ) (accel gyro : Vec3) (now : Nat) (s : State) :
    (loop sqrtf accel gyro now s).gyroBuffer =
      s.gyroBuffer.set s.bufIndex (gyroMagDeg sqrtf gyro) ∧
    (loop sqrtf accel gyro now s).bufIndex =
      (if s.bufIndex + 1 ≥ SAMPLE_HZ then 0 else s.bufIndex + 1) ∧
    (loop sqrtf accel gyro now s).seizureFlag =
      (if s.bufIndex + 1 ≥ SAMPLE_HZ then
        (if sqrtf (sumSq (s.gyroBuffer.set s.bufIndex (gyroMagDeg sqrtf gyro)) SAMPLE_HZ
            / SAMPLE_HZ) > SEIZURE_RMS_THR then 1 else 0)
       else s.seizureFlag) := by
  unfold loop
  dsimp only
  split_ifs <;> exact ⟨rfl, rfl, rfl⟩

end FinalImu

namespace WebServer

/-- The RMS part of one call: cursor, buffer and seizure flag afterwards. -/
theorem web_seizure_after (sqrtf : ℚ → ℚ) (accel gyro : Vec3) (now : Nat) (s : State) :
    (readSensorData sqrtf (some accel) (some gyro) now s).1.gyroBuffer =
      s.gyroBuffer.set s.bufIndex (gyroMagDeg sqrtf gyro) ∧
    (readSensorData sqrtf (some accel) (some gyro) now s).1.bufIndex =
      (if s.bufIndex + 1 ≥ SAMPLE_HZ then 0 else s.bufIndex + 1) ∧
    (readSensorData sqrtf (some accel) (some gyro) now s).1.seizureFlag =
      (if s.bufIndex + 1 ≥ SAMPLE_HZ then
        (if sqrtf (sumSq (s.gyroBuffer.set s.bufIndex (gyroMagDeg sqrtf gyro)) SAMPLE_HZ
            / SAMPLE_HZ) > SEIZURE_RMS_THR then 1 else 0)
       else s.seizureFlag) := by
  unfold readSensorData
  dsimp only
  split_ifs <;> exact ⟨rfl, rfl, rfl⟩

end WebServer

namespace NewLogic

/-- The RMS part of one call: cursor, buffer, condition marker and seizure
flag afterwards. -/
theorem nl_seizure_after (sqrtf : ℚ → ℚ) (accel gyro : Vec3) (tFall tSeizure : Nat)
    (s : State) :
    (readSensorData sqrtf (some accel) (some gyro) tFall tSeizure s).1.gyroBuffer =
      s.gyroBuffer.set s.bufIndex (gyroMagDeg sqrtf gyro) ∧
    (readSensorData sqrtf (some accel) (some gyro) tFall tSeizure s).1.bufIndex =
      (if s.bufIndex + 1 ≥ 100 then 0 else s.bufIndex + 1) ∧
    (readSensorData sqrtf (some accel) (some gyro) tFall tSeizure s).1.wasSeizureDetected =
      (if s.bufIndex + 1 ≥ 100 then
        decide (sqrtf (sumSq (s.gyroBuffer.set s.bufIndex (gyroMagDeg sqrtf gyro)) 100 / 100)
          > SEIZURE_RMS_THR)
       else s.wasSeizureDetected) ∧
    (readSensorData sqrtf (some accel) (some gyro) tFall tSeizure s).1.seizureFlag =
      (if s.bufIndex + 1 ≥ 100 ∧
          sqrtf (sumSq (s.gyroBuffer.set s.bufIndex (gyroMagDeg sqrtf gyro)) 100 / 100)
            > SEIZURE_RMS_THR ∧ s.seizureFlag = 0 then 1
       else s.seizureFlag) := by
  unfold readSensorData
  dsimp only
  split_ifs <;> simp_all

end NewLogic

namespace FallThreshold

/-- The flag and its stamp after one pass, as functions of the state before. -/
theorem thr_flag_after (sqrtf : ℚ → ℚ) (accel : Vec3) (now : Nat) (s : State) :
    (loop sqrtf accel now s).fallFlag =
      (if accelMagG sqrtf accel < FREEFALL_THRESH_G ∧ s.inFreefall = true ∧
          usub now s.freefallStart ≥ DEBOUNCE_MS ∧ s.fallFlag = 0 then 1
        else if s.fallFlag = 1 ∧ usub now s.flagRaisedAt ≥ FLAG_MS then 0
        else s.fallFlag) ∧
    (loop sqrtf accel now s).flagRaisedAt =
      (if accelMagG sqrtf accel < FREEFALL_THRESH_G ∧ s.inFreefall = true ∧
          usub now s.freefallStart ≥ DEBOUNCE_MS ∧ s.fallFlag = 0 then now
        else s.flagRaisedAt) := by
  unfold loop
  dsimp only
  cases hin : s.inFreefall <;>
    by_cases hlow : accelMagG sqrtf accel < FREEFALL_THRESH_G <;>
    by_cases ht : usub now s.freefallStart ≥ DEBOUNCE_MS <;>
    by_cases hf : s.fallFlag = 0 <;>
    simp only [hlow, ht, hf, usub_self, FLAG_MS, if_true, if_false, true_and, and_true,
      false_and, and_false, Bool.not_true, Bool.not_false, Bool.false_eq_true, ne_eq,
      not_true_eq_false, not_false_eq_true, ge_iff_le] <;>
    (try split_ifs) <;> simp_all

end FallThreshold

namespace FinalImu

/-- The flag and its stamp after one pass, as functions of the state before. -/
theorem imu_flag_after (sqrtf : ℚ → ℚ) (accel gyro : Vec3) (now : Nat) (s : State) :
    (loop sqrtf accel gyro now s).fallFlag =
      (if accelMagG sqrtf accel < FREEFALL_G ∧ s.inFreefall = true ∧
          usub now s.freefallStart ≥ DEBOUNCE_MS ∧ gyroSpike GYRO_FALL_DEG_S gyro ∧
          s.fallFlag = 0 then 1
        else if s.fallFlag ≠ 0 ∧ usub now s.flagRaisedAt ≥ FLAG_MS then 0
        else s.fallFlag) ∧
    (loop sqrtf accel gyro now s).flagRaisedAt =
      (if accelMagG sqrtf accel < FREEFALL_G ∧ s.inFreefall = true ∧
          usub now s.freefallStart ≥ DEBOUNCE_MS ∧ gyroSpike GYRO_FALL_DEG_S gyro ∧
          s.fallFlag = 0 then now
        else s.flagRaisedAt) := by
  unfold loop
  dsimp only
  cases hin : s.inFreefall <;>
    by_cases hlow : accelMagG sqrtf accel < FREEFALL_G <;>
    by_cases ht : usub now s.freefallStart ≥ DEBOUNCE_MS <;>
    by_cases hsp : gyroSpike GYRO_FALL_DEG_S gyro <;>
    by_cases hf : s.fallFlag = 0 <;>
    simp only [hlow, ht, hsp, hf, usub_self, FLAG_MS, if_true, if_false, true_and, and_true,
      false_and, and_false, Bool.not_true, Bool.not_false, Bool.false_eq_true, ne_eq,
      not_true_eq_false, not_false_eq_true, ge_iff_le] <;>
    (try split_ifs) <;> simp_all

end FinalImu

namespace WebServer

/-- The flag and its stamp after one call, as functions of the state before. -/
theorem web_flag_after (sqrtf : ℚ → ℚ) (accel gyro : Vec3) (now : Nat) (s : State) :
    (readSensorData sqrtf (some accel) (some gyro) now s).1.fallFlag =
      (if accelMagG sqrtf accel < FREEFALL_G ∧ s.inFreefall = true ∧
          usub now s.freefallStart ≥ DEBOUNCE_MS ∧ gyroSpike GYRO_FALL_DEG_S gyro ∧
          s.fallFlag = 0 then 1
        else if s.fallFlag ≠ 0 ∧ usub now s.flagRaisedAt ≥ FLAG_MS then 0
        else s.fallFlag) ∧
    (readSensorData sqrtf (some accel) (some gyro) now s).1.flagRaisedAt =
      (if accelMagG sqrtf accel < FREEFALL_G ∧ s.inFreefall = true ∧
          usub now s.freefallStart ≥ DEBOUNCE_MS ∧ gyroSpike GYRO_FALL_DEG_S gyro ∧
          s.fallFlag = 0 then now
        else s.flagRaisedAt) := by
  unfold readSensorData
  dsimp only
  cases hin : s.inFreefall <;>
    by_cases hlow : accelMagG sqrtf accel < FREEFALL_G <;>
    by_cases ht : usub now s.freefallStart ≥ DEBOUNCE_MS <;>
    by_cases hsp : gyroSpike GYRO_FALL_DEG_S gyro <;>
    by_cases hf : s.fallFlag = 0 <;>
    simp only [hlow, ht, hsp, hf, usub_self, FLAG_MS, if_true, if_false, true_and, and_true,
      false_and, and_false, Bool.not_true, Bool.not_false, Bool.false_eq_true, ne_eq,
      not_true_eq_false, not_false_eq_true, ge_iff_le] <;>
    (try split_ifs) <;> simp_all

end WebServer

/-- C11. In the variants with `FLAG_MS` (`fall_detection_threshold.cpp`,
`finalimu.cpp`, `webserver-ip-detection.cpp`), for every pass from every
state: at the end of the pass `fallFlag` is 1 only if `now - flagRaisedAt`
is below `FLAG_MS`; a flag that was 1 is 0 after the pass when
`now - flagRaisedAt >= FLAG_MS`; and a flag that was 1 stays 1, with the
same `flagRaisedAt`, when `now - flagRaisedAt < FLAG_MS`. -/
theorem C11_flag_auto_clear (sqrtf : ℚ → ℚ) :
    (∀ (accel : Vec3) (now : Nat) (s : FallThreshold.State),
      ((FallThreshold.loop sqrtf accel now s).fallFlag = 1 →
        usub now (FallThreshold.loop sqrtf accel now s).flagRaisedAt <
          FallThreshold.FLAG_MS) ∧
      (s.fallFlag = 1 → usub now s.flagRaisedAt ≥ FallThreshold.FLAG_MS →
        (FallThreshold.loop sqrtf accel now s).fallFlag = 0) ∧
      (s.fallFlag = 1 → usub now s.flagRaisedAt < FallThreshold.FLAG_MS →
        (FallThreshold.loop sqrtf accel now s).fallFlag = 1 ∧
        (FallThreshold.loop sqrtf accel now s).flagRaisedAt = s.flagRaisedAt)) ∧
    (∀ (accel gyro : Vec3) (now : Nat) (s : FinalImu.State),
      ((FinalImu.loop sqrtf accel gyro now s).fallFlag = 1 →
        usub now (FinalImu.loop sqrtf accel gyro now s).flagRaisedAt < FinalImu.FLAG_MS) ∧
      (s.fallFlag = 1 → usub now s.flagRaisedAt ≥ FinalImu.FLAG_MS →
        (FinalImu.loop sqrtf accel gyro now s).fallFlag = 0) ∧
      (s.fallFlag = 1 → usub now s.flagRaisedAt < FinalImu.FLAG_MS →
        (FinalImu.loop sqrtf accel gyro now s).fallFlag = 1 ∧
        (FinalImu.loop sqrtf accel gyro now s).flagRaisedAt = s.flagRaisedAt)) ∧
    (∀ (accel gyro : Vec3) (now : Nat) (s : WebServer.State),
      ((WebServer.readSensorData sqrtf (some accel) (some gyro) now s).1.fallFlag = 1 →
        usub now (WebServer.readSensorData sqrtf (some accel) (some gyro) now s).1.flagRaisedAt
          < WebServer.FLAG_MS) ∧
      (s.fallFlag = 1 → usub now s.flagRaisedAt ≥ WebServer.FLAG_MS →
        (WebServer.readSensorData sqrtf (some accel) (some gyro) now s).1.fallFlag = 0) ∧
      (s.fallFlag = 1 → usub now s.flagRaisedAt < WebServer.FLAG_MS →
        (WebServer.readSensorData sqrtf (some accel) (some gyro) now s).1.fallFlag = 1 ∧
        (WebServer.readSensorData sqrtf (some accel) (some gyro) now s).1.flagRaisedAt =
          s.flagRaisedAt)) := by
  refine ⟨?_, ?_, ?_⟩
  · intro accel now s
    obtain ⟨h1, h2⟩ := FallThreshold.thr_flag_after sqrtf accel now s
    rw [h1, h2]
    refine ⟨?_, ?_, ?_⟩
    · split_ifs <;> simp_all [usub_self, FallThreshold.FLAG_MS]
    · intro hf ht
      split_ifs <;> simp_all
    · intro hf ht
      have ht2 : ¬ (usub now s.flagRaisedAt ≥ FallThreshold.FLAG_MS) := by omega
      split_ifs <;> simp_all
  · intro accel gyro now s
    obtain ⟨h1, h2⟩ := FinalImu.imu_flag_after sqrtf accel gyro now s
    rw [h1, h2]
    refine ⟨?_, ?_, ?_⟩
    · split_ifs <;> simp_all [usub_self, FinalImu.FLAG_MS]
    · intro hf ht
      split_ifs <;> simp_all
    · intro hf ht
      have ht2 : ¬ (usub now s.flagRaisedAt ≥ FinalImu.FLAG_MS) := by omega
      split_ifs <;> simp_all
  · intro accel gyro now s
    obtain ⟨h1, h2⟩ := WebServer.web_flag_after sqrtf accel gyro now s
    rw [h1, h2]
    refine ⟨?_, ?_, ?_⟩
    · split_ifs <;> simp_all [usub_self, WebServer.FLAG_MS]
    · intro hf ht
      split_ifs <;> simp_all
    · intro hf ht
      have ht2 : ¬ (usub now s.flagRaisedAt ≥ WebServer.FLAG_MS) := by omega
      split_ifs <;> simp_all

/-- C11 on `finalimu.cpp`: a flag raised at 1100 ms is still up at 6099 ms
and is lowered by the pass at 6100 ms. -/
theorem C11_flag_auto_clear_witness :
    (FinalImu.loop qsqrt ⟨0, 0, 9.80665⟩ ⟨0, 0, 0⟩ 6099
        { fallFlag := 1, flagRaisedAt := 1100 }).fallFlag = 1 ∧
    (FinalImu.loop qsqrt ⟨0, 0, 9.80665⟩ ⟨0, 0, 0⟩ 6100
        { fallFlag := 1, flagRaisedAt := 1100 }).fallFlag = 0 :=
  ⟨(((C11_flag_auto_clear qsqrt).2.1 ⟨0, 0, 9.80665⟩ ⟨0, 0, 0⟩ 6099
      { fallFlag := 1, flagRaisedAt := 1100 }).2.2 rfl (by decide!)).1,
    ((C11_flag_auto_clear qsqrt).2.1 ⟨0, 0, 9.80665⟩ ⟨0, 0, 0⟩ 6100
      { fallFlag := 1, flagRaisedAt := 1100 }).2.1 rfl (by decide!)⟩

/-- C12. Let `v >= 0` and let `sqrt` return the square root of `v*v`. When
the 100 cells of the gyro buffer, the sample just written included, all hold
`v`, the RMS computed at the window boundary, `sqrt(sumSq / 100)`, equals
`v` (also as a real number, with the real square root), and the seizure
decision taken there is 1 exactly when `v > SEIZURE_RMS_THR`: `seizureFlag`
in `finalimu.cpp` and `webserver-ip-detection.cpp`, `wasSeizureDetected` in
`newfallseizurelogic.cpp`. -/
theorem C12_rms_of_constant_window (sqrtf : ℚ → ℚ) (v : ℚ) (hv : 0 ≤ v)
    (hsqrt : IsSqrt (v * v) (sqrtf (v * v))) :
    sqrtf (sumSq (List.replicate 100 v) 100 / 100) = v ∧
    Real.sqrt (((sumSq (List.replicate 100 v) 100 / 100 : ℚ) : ℝ)) = (v : ℝ) ∧
    (∀ (accel gyro : Vec3) (now : Nat) (s : FinalImu.State),
      s.bufIndex = 99 →
      s.gyroBuffer.set s.bufIndex (gyroMagDeg sqrtf gyro) = List.replicate 100 v →
      (FinalImu.loop sqrtf accel gyro now s).seizureFlag =
        if v > FinalImu.SEIZURE_RMS_THR then 1 else 0) ∧
    (∀ (accel gyro : Vec3) (now : Nat) (s : WebServer.State),
      s.bufIndex = 99 →
      s.gyroBuffer.set s.bufIndex (gyroMagDeg sqrtf gyro) = List.replicate 100 v →
      (WebServer.readSensorData sqrtf (some accel) (some gyro) now s).1.seizureFlag =
        if v > WebServer.SEIZURE_RMS_THR then 1 else 0) ∧
    (∀ (accel gyro : Vec3) (tFall tSeizure : Nat) (s : NewLogic.State),
      s.bufIndex = 99 →
      s.gyroBuffer.set s.bufIndex (gyroMagDeg sqrtf gyro) = List.replicate 100 v →
      (NewLogic.readSensorData sqrtf (some accel) (some gyro) tFall tSeizure
        s).1.wasSeizureDetected = decide (v > NewLogic.SEIZURE_RMS_THR)) := by
  have hmean : sumSq (List.replicate 100 v) 100 / 100 = v * v := by
    rw [sumSq_replicate v 100 100 (le_refl _)]
    push_cast
    ring
  have hrms : sqrtf (sumSq (List.replicate 100 v) 100 / 100) = v := by
    rw [hmean]
    exact (isSqrt_sq_iff v _ hv).mp hsqrt
  refine ⟨hrms, ?_, ?_, ?_, ?_⟩
  · rw [hmean]
    push_cast
    exact Real.sqrt_mul_self (by exact_mod_cast hv)
  · intro accel gyro now s hidx hbuf
    rw [(FinalImu.imu_seizure_after sqrtf accel gyro now s).2.2, hbuf, hidx]
    simp only [FinalImu.SAMPLE_HZ, Nat.cast_ofNat, hrms]
    simp
  · intro accel gyro now s hidx hbuf
    rw [(WebServer.web_seizure_after sqrtf accel gyro now s).2.2, hbuf, hidx]
    simp only [WebServer.SAMPLE_HZ, Nat.cast_ofNat, hrms]
    simp
  · intro accel gyro tFall tSeizure s hidx hbuf
    rw [(NewLogic.nl_seizure_after sqrtf accel gyro tFall tSeizure s).2.2.1, hbuf, hidx]
    simp only [hrms]
    simp

/-- C12 at `v = 90`: the RMS of a window of 100 samples of 90 deg/s is 90. -/
theorem C12_rms_of_constant_window_witness :
    qsqrt (sumSq (List.replicate 100 90) 100 / 100) = 90 :=
  (C12_rms_of_constant_window qsqrt 90 (by decide!) (by decide!)).1

namespace FinalImu

/-- The state after `n + 1` passes is one pass after the state after `n`. -/
theorem imu_run_take_succ (sqrtf : ℚ → ℚ) (s : State) (ks : List Tick) (n : Nat)
    (hn : n < ks.length) :
    run sqrtf s (ks.take (n + 1)) =
      loop sqrtf (ks.get ⟨n, hn⟩).accel (ks.get ⟨n, hn⟩).gyro (ks.get ⟨n, hn⟩).now
        (run sqrtf s (ks.take n)) := by
  rw [List.take_succ, imu_run_append]
  simp only [List.getElem?_eq_getElem hn, Option.toList_some, List.get_eq_getElem]
  rfl

/-- From `bufIndex = 0`, the write cursor after `n` passes is `n % 100`. -/
theorem imu_bufIndex_run (sqrtf : ℚ → ℚ) (s : State) (ks : List Tick) (h0 : s.bufIndex = 0)
    (n : Nat) (hn : n ≤ ks.length) :
    (run sqrtf s (ks.take n)).bufIndex = n % 100 := by
  induction n with
  | zero => simpa [run] using h0
  | succ k ih =>
    have hk : k < ks.length := by omega
    rw [imu_run_take_succ sqrtf s ks k hk, (imu_seizure_after sqrtf _ _ _ _).2.1,
      ih (by omega)]
    simp only [SAMPLE_HZ]
    split_ifs <;> omega

/-- C13. In `finalimu.cpp`, from a cold start (`bufIndex = 0`,
`seizureFlag = 0`) and for every sequence of samples: after pass number
`n + 1` the write cursor is `(n + 1) % 100`; `seizureFlag` is 0 after each
of the first 99 passes; on a pass whose number is not a multiple of 100 the
flag keeps the value it had before the pass; on the 100th pass and on every
further multiple of 100, when the cursor wraps to 0, the flag is set from
the RMS of the buffer, `sqrt(sumSq / 100) > SEIZURE_RMS_THR`. -/
theorem C13_rms_cold_start (sqrtf : ℚ → ℚ) (s0 : State) (ks : List Tick)
    (hidx : s0.bufIndex = 0) (hflag : s0.seizureFlag = 0) (n : Nat) (hn : n < ks.length) :
    (run sqrtf s0 (ks.take (n + 1))).bufIndex = (n + 1) % 100 ∧
    (n + 1 < 100 → (run sqrtf s0 (ks.take (n + 1))).seizureFlag = 0) ∧
    ((n + 1) % 100 ≠ 0 →
      (run sqrtf s0 (ks.take (n + 1))).seizureFlag =
        (run sqrtf s0 (ks.take n)).seizureFlag) ∧
    ((n + 1) % 100 = 0 →
      (run sqrtf s0 (ks.take (n + 1))).seizureFlag =
        if sqrtf (sumSq (run sqrtf s0 (ks.take (n + 1))).gyroBuffer SAMPLE_HZ / SAMPLE_HZ)
            > SEIZURE_RMS_THR then 1 else 0) := by
  have hstep : ∀ m (hm : m < ks.length),
      (m + 1) % 100 ≠ 0 →
      (run sqrtf s0 (ks.take (m + 1))).seizureFlag =
        (run sqrtf s0 (ks.take m)).seizureFlag := by
    intro m hm hmod
    rw [imu_run_take_succ sqrtf s0 ks m hm, (imu_seizure_after sqrtf _ _ _ _).2.2,
      imu_bufIndex_run sqrtf s0 ks hidx m (by omega)]
    simp only [SAMPLE_HZ]
    rw [if_neg (by omega)]
  refine ⟨imu_bufIndex_run sqrtf s0 ks hidx (n + 1) (by omega), ?_, hstep n hn, ?_⟩
  · intro hlt
    have : ∀ m, m ≤ n + 1 → (run sqrtf s0 (ks.take m)).seizureFlag = 0 := by
      intro m
      induction m with
      | zero => intro _; simpa [run] using hflag
      | succ k ih =>
        intro hk
        rw [hstep k (by omega) (by omega)]
        exact ih (by omega)
    exact this (n + 1) (le_refl _)
  · intro hmod
    rw [imu_run_take_succ sqrtf s0 ks n hn]
    obtain ⟨hb, -, hs⟩ := imu_seizure_after sqrtf (ks.get ⟨n, hn⟩).accel (ks.get ⟨n, hn⟩).gyro
      (ks.get ⟨n, hn⟩).now (run sqrtf s0 (ks.take n))
    rw [hs, hb, imu_bufIndex_run sqrtf s0 ks hidx n (by omega)]
    simp only [SAMPLE_HZ]
    rw [if_pos (by omega)]

/-- C13 on 100 passes with a gyro rate of 3 rad/s (171.9 deg/s): the flag is
still 0 after 50 passes and is 1 after the 100th. -/
theorem C13_rms_cold_start_witness :
    (run qsqrt {} ((List.replicate 100 (⟨⟨0, 0, 9.80665⟩, ⟨3, 0, 0⟩, 0⟩ : Tick)).take
      (49 + 1))).seizureFlag = 0 ∧
    (run qsqrt {} ((List.replicate 100 (⟨⟨0, 0, 9.80665⟩, ⟨3, 0, 0⟩, 0⟩ : Tick)).take
      (99 + 1))).seizureFlag = 1 :=
  ⟨(C13_rms_cold_start qsqrt {} (List.replicate 100 ⟨⟨0, 0, 9.80665⟩, ⟨3, 0, 0⟩, 0⟩) rfl rfl 49
      (by decide!)).2.1 (by decide!),
    ((C13_rms_cold_start qsqrt {} (List.replicate 100 ⟨⟨0, 0, 9.80665⟩, ⟨3, 0, 0⟩, 0⟩) rfl rfl 99
      (by decide!)).2.2.2 (by decide!)).trans (by decide!)⟩

end FinalImu

/-- The unsigned difference recovers an elapsed time below `2^32` across the
wraparound of the clock. -/
theorem usub_wrap (s e : Nat) (he : e < WORD) : usub ((s + e) % WORD) s = e := by
  unfold usub WORD at *
  omega

/-- C14. Let a duration start at clock value `s` and let `e < 2^32` be the
true elapsed time, so that the clock reads `now = (s + e) mod 2^32`. Then
the unsigned 32-bit difference `now - s` is `e`, and the code's tests decide
as on `e`: a sub-threshold pass of `fall_detection_threshold.cpp` that is
observing from `freefallStart = s` raises the flag exactly when
`e >= DEBOUNCE_MS`; a flag raised at `flagRaisedAt = s` is lowered exactly
when `e >= FLAG_MS`; and `checkMedicalConditions` with
`last_critical_alert = s` sends a CRITICAL alert exactly when a CRITICAL
trigger holds and `e > critical_cooldown` (likewise SEIZURE and SEPSIS). -/
theorem C14_wraparound_difference (s e : Nat) (he : e < WORD) :
    usub ((s + e) % WORD) s = e ∧
    (∀ (sqrtf : ℚ → ℚ) (accel : Vec3) (st : FallThreshold.State),
      accelMagG sqrtf accel < FallThreshold.FREEFALL_THRESH_G →
      st.inFreefall = true → st.fallFlag = 0 → st.freefallStart = s →
      ((FallThreshold.loop sqrtf accel ((s + e) % WORD) st).fallFlag = 1 ↔
        e ≥ FallThreshold.DEBOUNCE_MS)) ∧
    (∀ (sqrtf : ℚ → ℚ) (accel : Vec3) (st : FallThreshold.State),
      st.fallFlag = 1 → st.flagRaisedAt = s →
      ((FallThreshold.loop sqrtf accel ((s + e) % WORD) st).fallFlag = 0 ↔
        e ≥ FallThreshold.FLAG_MS)) ∧
    (∀ (th : Combined.MedicalThresholds) (g : Combined.Globals),
      (g.last_critical_alert = s →
        (Combined.Emits (Combined.checkMedicalConditions th ((s + e) % WORD) g).2
            Combined.Tier.CRITICAL ↔
          Combined.CriticalTrigger th ((s + e) % WORD) g ∧ e > th.critical_cooldown)) ∧
      (g.last_seizure_alert = s →
        (Combined.Emits (Combined.checkMedicalConditions th ((s + e) % WORD) g).2
            Combined.Tier.SEIZURE ↔
          ¬ Combined.CriticalTrigger th ((s + e) % WORD) g ∧
          Combined.SeizureTrigger th ((s + e) % WORD) g ∧ e > th.seizure_cooldown)) ∧
      (g.last_sepsis_alert = s →
        (Combined.Emits (Combined.checkMedicalConditions th ((s + e) % WORD) g).2
            Combined.Tier.SEPSIS ↔
          ¬ Combined.CriticalTrigger th ((s + e) % WORD) g ∧
          ¬ Combined.SeizureTrigger th ((s + e) % WORD) g ∧
          Combined.SepsisTrigger th g ∧ e > th.sepsis_cooldown))) := by
  have hw := usub_wrap s e he
  refine ⟨hw, ?_, ?_, ?_⟩
  · intro sqrtf accel st hlow hin hflag hstart
    rw [(FallThreshold.thr_flag_after sqrtf accel _ st).1, hstart, hw]
    simp only [hlow, hin, hflag, true_and, and_true]
    split_ifs <;> simp_all
  · intro sqrtf accel st hflag hstamp
    rw [(FallThreshold.thr_flag_after sqrtf accel _ st).1, hstamp, hw]
    simp only [hflag, true_and]
    split_ifs <;> simp_all
  · intro th g
    obtain ⟨e1, e2, e3, -, -⟩ := Combined.emits_iff th ((s + e) % WORD) g
    refine ⟨?_, ?_, ?_⟩
    · intro h; rw [e1, h, hw]
    · intro h; rw [e2, h, hw]
    · intro h; rw [e3, h, hw]

/-- C14 across the wraparound: a span of 500 ms that starts 296 ms before
the clock wraps. -/
theorem C14_wraparound_difference_witness :
    usub ((4294967000 + 500) % WORD) 4294967000 = 500 :=
  (C14_wraparound_difference 4294967000 500 (by decide)).1

/-- C15. When the accelerometer read or the gyroscope read fails,
`readSensorData` of `webserver-ip-detection.cpp` and of
`newfallseizurelogic.cpp` returns false and returns the globals as they
were: flags, debounce state, timestamps, buffer and cursor are unchanged. -/
theorem C15_read_failure_leaves_state (sqrtf : ℚ → ℚ) :
    (∀ (accel gyro : Option Vec3) (now : Nat) (s : WebServer.State),
      accel = none ∨ gyro = none →
      WebServer.readSensorData sqrtf accel gyro now s = (s, false)) ∧
    (∀ (accel gyro : Option Vec3) (tFall tSeizure : Nat) (s : NewLogic.State),
      accel = none ∨ gyro = none →
      NewLogic.readSensorData sqrtf accel gyro tFall tSeizure s = (s, false)) ∧
    (∀ (accel gyro : Vec3) (now : Nat) (s : WebServer.State),
      (WebServer.readSensorData sqrtf (some accel) (some gyro) now s).2 = true) ∧
    (∀ (accel gyro : Vec3) (tFall tSeizure : Nat) (s : NewLogic.State),
      (NewLogic.readSensorData sqrtf (some accel) (some gyro) tFall tSeizure s).2 = true) := by
  refine ⟨?_, ?_, fun _ _ _ _ => rfl, fun _ _ _ _ _ => rfl⟩
  · intro accel gyro now s h
    cases accel with
    | none => rfl
    | some a =>
      cases gyro with
      | none => rfl
      | some g => simp at h
  · intro accel gyro tFall tSeizure s h
    cases accel with
    | none => rfl
    | some a =>
      cases gyro with
      | none => rfl
      | some g => simp at h

/-- C15 on a failed gyroscope read in the middle of an observed free fall. -/
theorem C15_read_failure_leaves_state_witness :
    WebServer.readSensorData qsqrt (some ⟨0, 0, 0⟩) none 1200
        { inFreefall := true, freefallStart := 1000, bufIndex := 99 } =
      ({ inFreefall := true, freefallStart := 1000, bufIndex := 99 }, false) :=
  (C15_read_failure_leaves_state qsqrt).1 (some ⟨0, 0, 0⟩) none 1200
    { inFreefall := true, freefallStart := 1000, bufIndex := 99 } (Or.inr rfl)

namespace Combined

/-- Appending a tag under a condition is appending a conditional tag. -/
theorem ite_append_tag (c : Prop) [Decidable c] (m : List Piece) (x : Piece) :
    (if c then m ++ [x] else m) = m ++ (if c then [x] else []) := by
  split_ifs <;> simp

/-- The alert that `checkMedicalConditions` returns, with its message as a
concatenation of conditional tags. -/
theorem check_snd_tags (th : MedicalThresholds) (t : Nat) (s : Globals) :
    (checkMedicalConditions th t s).2 =
      (if CriticalTrigger th t s then
         if usub t s.last_critical_alert > th.critical_cooldown then
           some ⟨"CRITICAL",
             [Piece.text "CRITICAL ALERT! "] ++
             (if s.current_hr > th.hr_critical_high then
               [Piece.text "Extreme Tachycardia "] else []) ++
             (if s.current_hr < th.hr_critical_low then
               [Piece.text "Extreme Bradycardia "] else []) ++
             (if s.current_spo2 < th.spo2_critical_low then
               [Piece.text "Severe Hypoxemia "] else []) ++
             (if s.accel_magnitude > th.accel_critical_threshold then
               [Piece.text "Violent Motion "] else []) ++
             (if s.motion_detected = true ∧
                 usub t s.motion_start_time > th.critical_motion_duration then
               [Piece.text "Prolonged Seizure Activity "] else []) ++
             [Piece.vitals s.current_hr s.current_spo2]⟩
         else none
       else if SeizureTrigger th t s then
         if usub t s.last_seizure_alert > th.seizure_cooldown then
           some ⟨"SEIZURE",
             [Piece.text "SEIZURE ALERT! "] ++
             (if s.current_hr > th.hr_seizure_high then [Piece.text "High HR "] else []) ++
             (if s.current_spo2 < th.spo2_seizure_low then [Piece.text "Low SpO2 "] else []) ++
             (if s.motion_detected = true then [Piece.text "Prolonged Motion "] else []) ++
             [Piece.vitals s.current_hr s.current_spo2]⟩
         else none
       else if SepsisTrigger th s then
         if usub t s.last_sepsis_alert > th.sepsis_cooldown then
           some ⟨"SEPSIS",
             [Piece.text "SEPSIS ALERT! "] ++
             (if s.current_hr > th.hr_sepsis_high then [Piece.text "Tachycardia "] else []) ++
             (if s.current_hr < th.hr_sepsis_low then [Piece.text "Bradycardia "] else []) ++
             (if s.current_spo2 < th.spo2_sepsis_low then [Piece.text "Hypoxemia "] else []) ++
             [Piece.vitals s.current_hr s.current_spo2]⟩
         else none
       else none) := by
  simp only [criticalTrigger_iff, seizureTrigger_iff, sepsisTrigger_iff]
  unfold checkMedicalConditions
  simp only [ite_append_tag]
  split
  · split <;> rfl
  · split
    · split <;> rfl
    · split
      · split <;> rfl
      · rfl

/-- The reason tags a CRITICAL alert carries. -/
theorem critical_tags (th : MedicalThresholds) (t : Nat) (s : Globals) (a : Alert)
    (ha : (checkMedicalConditions th t s).2 = some a) (hty : a.alert_type = "CRITICAL") :
    (s.current_hr > th.hr_critical_high →
      Piece.text "Extreme Tachycardia " ∈ a.alert_message) ∧
    (s.current_hr < th.hr_critical_low →
      Piece.text "Extreme Bradycardia " ∈ a.alert_message) ∧
    (s.current_spo2 < th.spo2_critical_low →
      Piece.text "Severe Hypoxemia " ∈ a.alert_message) ∧
    (s.accel_magnitude > th.accel_critical_threshold →
      Piece.text "Violent Motion " ∈ a.alert_message) ∧
    (motionDuration t s > th.critical_motion_duration →
      Piece.text "Prolonged Seizure Activity " ∈ a.alert_message) := by
  have hmd : motionDuration t s > th.critical_motion_duration ↔
      (s.motion_detected = true ∧
        usub t s.motion_start_time > th.critical_motion_duration) := by
    unfold motionDuration
    cases s.motion_detected <;> simp
  rw [hmd]
  rw [check_snd_tags] at ha
  split at ha
  · split at ha
    · injection ha with ha
      subst ha
      clear hty
      refine ⟨?_, ?_, ?_, ?_, ?_⟩ <;> intro h <;> simp [h]
    · cases ha
  · split at ha
    · split at ha
      · injection ha with ha
        subst ha
        simp at hty
      · cases ha
    · split at ha
      · split at ha
        · injection ha with ha
          subst ha
          simp at hty
        · cases ha
      · cases ha

/-- The reason tags a SEIZURE alert carries. -/
theorem seizure_tags (th : MedicalThresholds) (t : Nat) (s : Globals) (a : Alert)
    (ha : (checkMedicalConditions th t s).2 = some a) (hty : a.alert_type = "SEIZURE") :
    (s.current_hr > th.hr_seizure_high → Piece.text "High HR " ∈ a.alert_message) ∧
    (s.current_spo2 < th.spo2_seizure_low → Piece.text "Low SpO2 " ∈ a.alert_message) ∧
    (motionDuration t s > th.motion_duration_threshold →
      Piece.text "Prolonged Motion " ∈ a.alert_message) := by
  have hmd : motionDuration t s > th.motion_duration_threshold →
      s.motion_detected = true := by
    unfold motionDuration
    cases s.motion_detected <;> simp
  rw [check_snd_tags] at ha
  split at ha
  · split at ha
    · injection ha with ha
      subst ha
      simp at hty
    · cases ha
  · split at ha
    · split at ha
      · injection ha with ha
        subst ha
        clear hty
        refine ⟨?_, ?_, ?_⟩
        · intro h; simp [h]
        · intro h; simp [h]
        · intro h; simp [hmd h]
      · cases ha
    · split at ha
      · split at ha
        · injection ha with ha
          subst ha
          simp at hty
        · cases ha
      · cases ha

/-- The reason tags a SEPSIS alert carries. -/
theorem sepsis_tags (th : MedicalThresholds) (t : Nat) (s : Globals) (a : Alert)
    (ha : (checkMedicalConditions th t s).2 = some a) (hty : a.alert_type = "SEPSIS") :
    (s.current_hr > th.hr_sepsis_high → Piece.text "Tachycardia " ∈ a.alert_message) ∧
    (s.current_hr < th.hr_sepsis_low → Piece.text "Bradycardia " ∈ a.alert_message) ∧
    (s.current_spo2 < th.spo2_sepsis_low → Piece.text "Hypoxemia " ∈ a.alert_message) := by
  rw [check_snd_tags] at ha
  split at ha
  · split at ha
    · injection ha with ha
      subst ha
      simp at hty
    · cases ha
  · split at ha
    · split at ha
      · injection ha with ha
        subst ha
        simp at hty
      · cases ha
    · split at ha
      · split at ha
        · injection ha with ha
          subst ha
          clear hty
          refine ⟨?_, ?_, ?_⟩ <;> intro h <;> simp [h]
        · cases ha
      · cases ha

end Combined

/-- C16, evaluated on the code. A CRITICAL alert carries a tag for five of
the six CRITICAL sub-conditions, and SEIZURE and SEPSIS alerts carry a tag
for each of theirs; the sub-condition `gyro_magnitude >
gyro_critical_threshold` has no tag. With normal vitals (HR 70, SpO2 98),
acceleration 1 and a gyro rate of 3 rad/s (171.9 deg/s, above the 100 deg/s
threshold), the alert sent at 100 s is "CRITICAL ALERT! " followed by the
vitals only, with no reason tag at all. -/
theorem C16_gyro_critical_untagged :
    (Combined.updateSensorReadings qsqrt (355 / 113) Combined.thresholds 70 98
        ⟨0, 0, 1⟩ ⟨3, 0, 0⟩ 99990 {}).gyro_magnitude >
      Combined.thresholds.gyro_critical_threshold ∧
    (Combined.loop qsqrt (355 / 113) Combined.thresholds {}
        ⟨70, 98, ⟨0, 0, 1⟩, ⟨3, 0, 0⟩, 99990, 100000⟩).2 =
      some ⟨"CRITICAL", [Combined.Piece.text "CRITICAL ALERT! ",
        Combined.Piece.vitals 70 98]⟩ ∧
    (∀ (th : Combined.MedicalThresholds) (t : Nat) (s : Combined.Globals)
        (a : Combined.Alert),
      (Combined.checkMedicalConditions th t s).2 = some a → a.alert_type = "CRITICAL" →
      (s.current_hr > th.hr_critical_high →
        Combined.Piece.text "Extreme Tachycardia " ∈ a.alert_message) ∧
      (s.current_hr < th.hr_critical_low →
        Combined.Piece.text "Extreme Bradycardia " ∈ a.alert_message) ∧
      (s.current_spo2 < th.spo2_critical_low →
        Combined.Piece.text "Severe Hypoxemia " ∈ a.alert_message) ∧
      (s.accel_magnitude > th.accel_critical_threshold →
        Combined.Piece.text "Violent Motion " ∈ a.alert_message) ∧
      (Combined.motionDuration t s > th.critical_motion_duration →
        Combined.Piece.text "Prolonged Seizure Activity " ∈ a.alert_message)) ∧
    (∀ (th : Combined.MedicalThresholds) (t : Nat) (s : Combined.Globals)
        (a : Combined.Alert),
      (Combined.checkMedicalConditions th t s).2 = some a → a.alert_type = "SEIZURE" →
      (s.current_hr > th.hr_seizure_high →
        Combined.Piece.text "High HR " ∈ a.alert_message) ∧
      (s.current_spo2 < th.spo2_seizure_low →
        Combined.Piece.text "Low SpO2 " ∈ a.alert_message) ∧
      (Combined.motionDuration t s > th.motion_duration_threshold →
        Combined.Piece.text "Prolonged Motion " ∈ a.alert_message)) ∧
    (∀ (th : Combined.MedicalThresholds) (t : Nat) (s : Combined.Globals)
        (a : Combined.Alert),
      (Combined.checkMedicalConditions th t s).2 = some a → a.alert_type = "SEPSIS" →
      (s.current_hr > th.hr_sepsis_high →
        Combined.Piece.text "Tachycardia " ∈ a.alert_message) ∧
      (s.current_hr < th.hr_sepsis_low →
        Combined.Piece.text "Bradycardia " ∈ a.alert_message) ∧
      (s.current_spo2 < th.spo2_sepsis_low →
        Combined.Piece.text "Hypoxemia " ∈ a.alert_message)) :=
  ⟨by decide!, by decide!, Combined.critical_tags, Combined.seizure_tags,
    Combined.sepsis_tags⟩

/-- C17, evaluated on the code. `SEIZURE_ALERT_MS` is 13000, not 7000: a
level-1 flag whose condition is still active becomes level 2 exactly when
`millis() - seizureStart >= 13000` and stays level 1 before that; a level-1
flag whose condition has ended is reset to 0 with `seizureStart = 0`. With
`seizureStart = 1000`, the pass of `loop` at 8000 ms (7 s elapsed) leaves
the flag at 1, as does the pass at 13999 ms; the pass at 14000 ms sets it
to 2. -/
theorem C17_escalation_after_13_seconds :
    NewLogic.SEIZURE_ALERT_MS = 13000 ∧
    (∀ (now : Nat) (s : NewLogic.State),
      s.seizureFlag = 1 → s.wasSeizureDetected = true →
      ((NewLogic.handleSeizureFlag now s).seizureFlag = 2 ↔
        usub now s.seizureStart ≥ 13000) ∧
      (usub now s.seizureStart < 13000 →
        (NewLogic.handleSeizureFlag now s).seizureFlag = 1)) ∧
    (∀ (now : Nat) (s : NewLogic.State),
      s.seizureFlag = 1 → s.wasSeizureDetected = false →
      (NewLogic.handleSeizureFlag now s).seizureFlag = 0 ∧
      (NewLogic.handleSeizureFlag now s).seizureStart = 0) ∧
    (NewLogic.loop qsqrt ⟨none, 8000, some ⟨0, 0, 9.80665⟩, some ⟨0, 0, 0⟩, 8000, 8000, true⟩
        ⟨{ seizureFlag := 1, wasSeizureDetected := true, seizureStart := 1000,
           mpuConnected := true }, 0, 1⟩).1.globals.seizureFlag = 1 ∧
    (NewLogic.loop qsqrt
        ⟨none, 13999, some ⟨0, 0, 9.80665⟩, some ⟨0, 0, 0⟩, 13999, 13999, true⟩
        ⟨{ seizureFlag := 1, wasSeizureDetected := true, seizureStart := 1000,
           mpuConnected := true }, 0, 1⟩).1.globals.seizureFlag = 1 ∧
    (NewLogic.loop qsqrt
        ⟨none, 14000, some ⟨0, 0, 9.80665⟩, some ⟨0, 0, 0⟩, 14000, 14000, true⟩
        ⟨{ seizureFlag := 1, wasSeizureDetected := true, seizureStart := 1000,
           mpuConnected := true }, 0, 1⟩).1.globals.seizureFlag = 2 := by
  refine ⟨rfl, ?_, ?_, by decide!, by decide!, by decide!⟩
  · intro now s hf hw
    unfold NewLogic.handleSeizureFlag
    simp only [hf, hw, NewLogic.SEIZURE_ALERT_MS, if_true, Bool.not_true, Bool.false_eq_true,
      if_false]
    constructor
    · split_ifs with h <;> simp_all
    · intro h
      rw [if_neg (by omega)]
      exact hf
  · intro now s hf hw
    unfold NewLogic.handleSeizureFlag
    simp [hf, hw]

namespace Combined

theorem usub_zero_le (t : Nat) : usub t 0 ≤ t := by
  unfold usub WORD
  omega

/-- C18. When the timestamp of tier `X` is 0, as at power-on, no pass of
`loop` whose time does not exceed `X`'s cooldown sends an alert of tier `X`,
whatever the readings are. With the default thresholds the cooldowns are
60000 ms (CRITICAL), 180000 ms (SEIZURE) and 300000 ms (SEPSIS), and the
three timestamps of the initial globals are 0. -/
theorem C18_no_alert_before_first_cooldown (sqrtf : ℚ → ℚ) (pi : ℚ)
    (th : MedicalThresholds) (X : Tier) (s0 : Globals) (ks : List LoopIn)
    (h0 : lastAlertOf s0 X = 0)
    (ht : ∀ k ∈ ks, k.tCheck ≤ cooldownOf th X) :
    (∀ o ∈ alerts sqrtf pi th s0 ks, ¬ Emits o X) ∧
    (cooldownOf thresholds Tier.CRITICAL = 60000 ∧
      cooldownOf thresholds Tier.SEIZURE = 180000 ∧
      cooldownOf thresholds Tier.SEPSIS = 300000) ∧
    (∀ Y, lastAlertOf ({} : Globals) Y = 0) := by
  refine ⟨?_, ⟨rfl, rfl, rfl⟩, fun Y => by cases Y <;> rfl⟩
  induction ks generalizing s0 with
  | nil => intro o ho; cases ho
  | cons k ks ih =>
    have hk := ht k (List.mem_cons_self _ _)
    have hno : ¬ Emits (loop sqrtf pi th s0 k).2 X := by
      rw [loop_emits_iff, h0]
      rintro ⟨-, -, h⟩
      have := usub_zero_le k.tCheck
      omega
    have hL := (loop_lastAlert sqrtf pi th s0 k X).2 hno
    intro o ho
    simp only [alerts, List.mem_cons] at ho
    rcases ho with rfl | ho
    · exact hno
    · exact ih (loop sqrtf pi th s0 k).1 (by rw [hL, h0])
        (fun k' hk' => ht k' (List.mem_cons_of_mem _ hk')) o ho

/-- C18 at power-on with HR = 150: the passes at 1 s and at 60 s display
CRITICAL and send nothing. -/
theorem C18_no_alert_before_first_cooldown_witness :
    (∀ o ∈ alerts qsqrt (355 / 113) thresholds {}
        [⟨150, 99, ⟨0, 0, 1⟩, ⟨0, 0, 0⟩, 990, 1000⟩,
          ⟨150, 99, ⟨0, 0, 1⟩, ⟨0, 0, 0⟩, 59990, 60000⟩],
      ¬ Emits o Tier.CRITICAL) ∧
    tiers qsqrt (355 / 113) thresholds {}
        [⟨150, 99, ⟨0, 0, 1⟩, ⟨0, 0, 0⟩, 990, 1000⟩,
          ⟨150, 99, ⟨0, 0, 1⟩, ⟨0, 0, 0⟩, 59990, 60000⟩] =
      [Tier.CRITICAL, Tier.CRITICAL] :=
  ⟨(C18_no_alert_before_first_cooldown qsqrt (355 / 113) thresholds Tier.CRITICAL {}
      [⟨150, 99, ⟨0, 0, 1⟩, ⟨0, 0, 0⟩, 990, 1000⟩,
        ⟨150, 99, ⟨0, 0, 1⟩, ⟨0, 0, 0⟩, 59990, 60000⟩] rfl (by decide!)).1,
    by decide!⟩

end Combined

end ByteHeal
